import Mathlib

/-!
# Verification of the HackRx-6 retrieval / answer-synthesis pipeline

A shallow embedding, in Lean 4, of the pure computational core of the
`HackRx-6` question-answering service:

* `app/core/query_processor.py` — query expansion, multi-pass retrieval,
  chunk fusion, batch orchestration;
* `app/core/llm_client.py` — query-type classification, token estimation,
  context preparation;
* `app/core/clause_matcher.py` — pattern-driven clause scoring;
* `app/utils/text_processing.py` — text normalisation.

Modelling conventions:

* Python strings are modelled as `List Char` (`Str`); helpers (`pyLower`,
  `pySplit`, `pyStrip`, `pyTitle`, `pyReplace`, `listContains`) reproduce
  the semantics of the corresponding Python `str` methods on ASCII input.
* Python floats are modelled as exact rationals `ℚ`; the decimal literals
  appearing in the source (0.6, 0.3, 0.02, 3.5, 1.2, …) are exactly
  representable and the comparisons performed never sit on a binary
  rounding boundary, so the rational model agrees with the float code on
  all inputs considered here.  `int(x)` on a non-negative float is `⌊x⌋`.
* Python regular expressions are modelled by a small derivative-based
  engine (`Rx`); `re.findall` is modelled as the leftmost-longest
  non-overlapping scan, which agrees with Python's leftmost-greedy
  semantics on every pattern of this code base and every input evaluated
  in this file.
* `asyncio` orchestration is modelled by explicit outcome functions: a
  per-question outcome is `Option String` (`none` = the task raised).
-/

/-! ## Python string semantics over `List Char` -/

abbrev Str := List Char

/-- Python whitespace for `str.split()` / `str.strip()` / `\s` (ASCII part). -/
def pyIsWs (c : Char) : Bool :=
  c = ' ' || c = '\t' || c = '\n' || c = '\x0d' || c = '\x0b' || c = '\x0c'

def pyIsDigit (c : Char) : Bool := '0' ≤ c && c ≤ '9'

def pyIsUpperAZ (c : Char) : Bool := 'A' ≤ c && c ≤ 'Z'

def pyIsLowerAZ (c : Char) : Bool := 'a' ≤ c && c ≤ 'z'

def pyIsAlpha (c : Char) : Bool := pyIsUpperAZ c || pyIsLowerAZ c

/-- `str.lower` on a character (ASCII). -/
def pyLowerC (c : Char) : Char :=
  if pyIsUpperAZ c then Char.ofNat (c.toNat + 32) else c

/-- `str.upper` on a character (ASCII). -/
def pyUpperC (c : Char) : Char :=
  if pyIsLowerAZ c then Char.ofNat (c.toNat - 32) else c

def pyLower (s : Str) : Str := s.map pyLowerC

def pyUpper (s : Str) : Str := s.map pyUpperC

/-- `str.strip()`: drop leading and trailing whitespace. -/
def pyStrip (s : Str) : Str :=
  ((s.dropWhile pyIsWs).reverse.dropWhile pyIsWs).reverse

/-- `str.split()` with no separator: split on whitespace runs, dropping
empty pieces. -/
def pySplit (s : Str) : List Str :=
  ((s.splitOnP pyIsWs).filter (fun w => ¬ w.isEmpty))

/-- `needle in haystack` for Python strings (substring containment). -/
def listContains (hay needle : Str) : Bool :=
  if needle.isEmpty then true
  else (List.range (hay.length + 1)).any (fun i => needle.isPrefixOf (hay.drop i))

/-- One step of `str.replace`: replace every non-overlapping occurrence of
`old` (assumed non-empty, scanning left to right) by `new`. -/
def pyReplace (fuel : Nat) (hay old new : Str) : Str :=
  match fuel, hay with
  | 0, rest => rest
  | _, [] => []
  | fuel + 1, c :: rest =>
    if old.isPrefixOf (c :: rest) then
      new ++ pyReplace fuel ((c :: rest).drop old.length) old new
    else
      c :: pyReplace fuel rest old new

/-- `str.replace(old, new)` (all occurrences, left to right). -/
def pyReplaceAll (hay old new : Str) : Str := pyReplace hay.length hay old new

/-- `str.title()`: upper-case every alphabetic character that follows a
non-alphabetic one (or starts the string), lower-case the rest. -/
def pyTitleGo (prevAlpha : Bool) : Str → Str
  | [] => []
  | c :: rest =>
    (if pyIsAlpha c then (if prevAlpha then pyLowerC c else pyUpperC c) else c)
      :: pyTitleGo (pyIsAlpha c) rest

def pyTitle (s : Str) : Str := pyTitleGo false s

/-! ## C7 — token estimation (`LLMClient._estimate_tokens`)

Source (`app/core/llm_client.py:811`):
```
total_chars = len(prompt) + len(response)
estimated_tokens = int(total_chars / 3.5)
estimated_tokens = int(estimated_tokens * 1.2)
```
`int` truncates toward zero; both intermediate values are non-negative, so
each `int(...)` is a floor. -/

def estimate_tokens (prompt response : String) : ℤ :=
  ⌊((⌊((prompt.length + response.length : ℕ) : ℚ) / (7/2 : ℚ)⌋ : ℤ) : ℚ) * (6/5 : ℚ)⌋

/-- The spec's claimed formula for C7: `⌈1.2·(|prompt|+|response|)/3.5⌉`,
stated from the spec's words for comparison with `estimate_tokens`. -/
def spec_claimed_tokens (n : ℕ) : ℤ :=
  ⌈(6/5 : ℚ) * ((n : ℚ) / (7/2 : ℚ))⌉

/-- The double-floor formula actually computed by the code, in closed
natural-number form: `⌊1.2 · ⌊(|p|+|r|) / 3.5⌋⌋ = (6 · ((2n) / 7)) / 5`
with truncating `Nat` division. -/
def code_tokens_closed (n : ℕ) : ℕ := 6 * ((2 * n) / 7) / 5

/-- C7 (counterexample): with `prompt = "a"` and `response = ""` the code
returns `int(int(1/3.5)·1.2) = 0`, while the claimed formula
`⌈1.2·1/3.5⌉` gives `1`. -/
theorem c7_estimate_tokens_not_ceiling :
    estimate_tokens "a" "" = 0 ∧ spec_claimed_tokens 1 = 1 ∧ (0 : ℤ) ≠ 1 := by
  refine ⟨?_, ?_, by decide⟩
  · show (⌊((⌊((1 : ℕ) : ℚ) / (7/2 : ℚ)⌋ : ℤ) : ℚ) * (6/5 : ℚ)⌋ : ℤ) = 0
    norm_num [Int.floor_eq_zero_iff, Set.mem_Ico]
  · show (⌈(6/5 : ℚ) * (((1 : ℕ) : ℚ) / (7/2 : ℚ))⌉ : ℤ) = 1
    norm_num [Int.ceil_eq_iff]

/-- C7 (amended): for every prompt `p` and response `r`, the estimated
token count equals the double floor `⌊1.2 · ⌊(|p|+|r|)/3.5⌋⌋`, i.e. the
closed form `(6·((2·(|p|+|r|))/7))/5` in truncating natural division —
not the single ceiling claimed by the spec. -/
lemma double_floor_closed (n : ℕ) :
    (⌊((⌊((n : ℕ) : ℚ) / (7/2 : ℚ)⌋ : ℤ) : ℚ) * (6/5 : ℚ)⌋ : ℤ)
      = (code_tokens_closed n : ℤ) := by
  unfold code_tokens_closed
  have h1 : (⌊((n : ℕ) : ℚ) / (7/2 : ℚ)⌋ : ℤ) = ((2 * n) / 7 : ℕ) := by
    have he : ((n : ℕ) : ℚ) / (7/2 : ℚ) = ((2 * n : ℕ) : ℚ) / ((7 : ℕ) : ℚ) := by
      push_cast; ring
    rw [he, Rat.floor_natCast_div_natCast]
    exact (Int.ofNat_tdiv _ _).symm
  rw [h1]
  generalize (2 * n) / 7 = m
  have h2 : ((((m : ℕ) : ℤ)) : ℚ) * (6/5 : ℚ)
      = ((6 * m : ℕ) : ℚ) / ((5 : ℕ) : ℚ) := by
    push_cast; ring
  rw [h2, Rat.floor_natCast_div_natCast]
  exact (Int.ofNat_tdiv _ _).symm

theorem c7_estimate_tokens_double_floor (prompt response : String) :
    estimate_tokens prompt response
      = (code_tokens_closed (prompt.length + response.length) : ℤ) :=
  double_floor_closed (prompt.length + response.length)

/-! ## C1 — batch answer assembly (`QueryProcessor._process_questions_batch`)

Source (`app/core/query_processor.py:488`):
```
results = await asyncio.gather(*tasks, return_exceptions=True)
ordered_answers = [''] * len(questions)
for result in results:
    if isinstance(result, Exception):
        ordered_answers.append("I apologize, but I encountered an error processing this question.")
    else:
        index, answer = result
        ordered_answers[index] = answer
return ordered_answers[:len(questions)]
```
Task `i` either returns the pair `(i, answer_i)` or raises; `gather` with
`return_exceptions=True` delivers, at position `i`, either that pair or the
exception object.  The per-question outcome is modelled by
`outcome : Nat → Option String` (`none` = the task for that index raised). -/

def batchApology : String :=
  "I apologize, but I encountered an error processing this question."

/-- The `results` list delivered by `asyncio.gather`. -/
def gatherResults (n : Nat) (outcome : Nat → Option String) :
    List (Except Unit (Nat × String)) :=
  (List.range n).map (fun i =>
    match outcome i with
    | some a => Except.ok (i, a)
    | none => Except.error ())

/-- The assembly loop and final truncation. -/
def process_questions_batch (questions : List String)
    (outcome : Nat → Option String) : List String :=
  let results := gatherResults questions.length outcome
  let ordered := results.foldl
    (fun acc r =>
      match r with
      | Except.error _ => acc ++ [batchApology]
      | Except.ok (i, a) => acc.set i a)
    (List.replicate questions.length "")
  ordered.take questions.length

/-- C1 (code bug, failing input): a batch of one question whose processing
raises yields `[""]` — the canned apology is appended past the end of the
answer list and then truncated away, leaving an *empty* string at the
failed question's position instead of the apology. -/
theorem c1_failed_question_leaves_empty_slot :
    process_questions_batch ["q"] (fun _ => none) = [""] ∧
    (process_questions_batch ["q"] (fun _ => none)).length = 1 ∧
    "" ≠ batchApology := by
  exact ⟨by rfl, by rfl, by decide⟩

/-! ## C2 — chunk fusion (`QueryProcessor._select_best_chunks`)

Source (`app/core/query_processor.py:992`).  Vector-search chunks are
entered into an (insertion-ordered) dict keyed by
`f"{document_id}_{chunk_index}"` with `combined_score` initialised to the
raw vector score; each clause match whose key is present then overwrites
`clause_score` and recomputes
`combined_score = 0.6*vector + 0.3*confidence + 0.1*pass_bonus` with
`pass_bonus = 0.1 if search_pass == 0 else 0.0`.  Chunks never hit by a
clause match keep `combined_score = vector_score`. -/

structure VChunk where
  document_id : String
  chunk_index : Nat
  score : ℚ
  search_pass : Nat
  text : String
  matched_query : String
  deriving DecidableEq

structure CMatch where
  document_id : String
  chunk_index : Nat
  confidence : ℚ
  deriving DecidableEq

structure ScoreEntry where
  chunk : VChunk
  vector_score : ℚ
  clause_score : ℚ
  combined_score : ℚ
  search_pass : Nat
  deriving DecidableEq

def chunkKey (d : String) (i : Nat) : String := d ++ "_" ++ toString i

/-- Python-dict association list: overwrite in place if present, else
append (insertion order preserved). -/
def dictSet (m : List (String × ScoreEntry)) (k : String) (v : ScoreEntry) :
    List (String × ScoreEntry) :=
  if m.any (fun p => p.1 = k) then
    m.map (fun p => if p.1 = k then (k, v) else p)
  else m ++ [(k, v)]

def dictGet? (m : List (String × ScoreEntry)) (k : String) : Option ScoreEntry :=
  (m.find? (fun p => p.1 = k)).map (fun p => p.2)

/-- First loop: score vector search results. -/
def scoreVectorChunks (vc : List VChunk) : List (String × ScoreEntry) :=
  vc.foldl
    (fun m c => dictSet m (chunkKey c.document_id c.chunk_index)
      { chunk := c, vector_score := c.score, clause_score := 0,
        combined_score := c.score, search_pass := c.search_pass })
    []

/-- The update applied to an entry by one clause match. -/
def applyMatch (e : ScoreEntry) (mt : CMatch) : ScoreEntry :=
  let passBonus : ℚ := if e.search_pass = 0 then 1/10 else 0
  { e with clause_score := mt.confidence,
           combined_score :=
             6/10 * e.vector_score + 3/10 * mt.confidence + 1/10 * passBonus }

/-- Second loop: add clause matching scores (keys not present are skipped). -/
def applyClauseMatches (m0 : List (String × ScoreEntry)) (cm : List CMatch) :
    List (String × ScoreEntry) :=
  cm.foldl
    (fun m mt =>
      let k := chunkKey mt.document_id mt.chunk_index
      match dictGet? m k with
      | none => m
      | some e => dictSet m k (applyMatch e mt))
    m0

def chunk_scores (vc : List VChunk) (cm : List CMatch) :
    List (String × ScoreEntry) :=
  applyClauseMatches (scoreVectorChunks vc) cm

/-- Final selection: sort dict values by `combined_score` descending
(stable, as Python's `sorted(..., reverse=True)`), take 5, return the
chunks. -/
def select_best_chunks (vc : List VChunk) (cm : List CMatch) : List VChunk :=
  ((((chunk_scores vc cm).map (fun p => p.2)).mergeSort
      (fun a b => decide (b.combined_score ≤ a.combined_score))).take 5).map
    (fun e => e.chunk)

/-! ### Dictionary lemmas for the fusion loops -/

lemma find?_map_set_self (k : String) (v : ScoreEntry) :
    ∀ m : List (String × ScoreEntry), m.any (fun p => p.1 = k) →
      ((m.map (fun p => if p.1 = k then (k, v) else p)).find?
        (fun p => p.1 = k)) = some (k, v)
  | [], h => by simp at h
  | p :: rest, h => by
    by_cases hp : p.1 = k
    · simp [hp, List.find?]
    · have hrest : rest.any (fun p => p.1 = k) := by
        simp [List.any_cons, hp] at h ⊢
        exact h
      simpa [List.find?, hp] using find?_map_set_self k v rest hrest

lemma find?_append_absent (k : String) (v : ScoreEntry)
    (m : List (String × ScoreEntry)) (h : ¬ m.any (fun p => p.1 = k)) :
    ((m ++ [(k, v)]).find? (fun p => p.1 = k)) = some (k, v) := by
  induction m with
  | nil => simp [List.find?]
  | cons p rest ih =>
    simp [List.any_cons] at h
    push_neg at h
    simpa [List.find?, h.1] using ih (by simp [h.2])

lemma dictGet?_dictSet_self (m : List (String × ScoreEntry)) (k : String)
    (v : ScoreEntry) : dictGet? (dictSet m k v) k = some v := by
  unfold dictSet dictGet?
  by_cases h : m.any (fun p => p.1 = k)
  · simp [h, find?_map_set_self k v m h]
  · simp [h, find?_append_absent k v m h]

lemma find?_map_set_other (k k' : String) (v : ScoreEntry) (hne : k' ≠ k) :
    ∀ m : List (String × ScoreEntry),
      ((m.map (fun p => if p.1 = k then (k, v) else p)).find?
          (fun p => p.1 = k'))
        = m.find? (fun p => p.1 = k')
  | [] => rfl
  | p :: rest => by
    simp only [List.map_cons]
    by_cases hp : p.1 = k
    · rw [if_pos hp]
      have h1 : ¬ (((k, v) : String × ScoreEntry).1 = k') :=
        fun hh => hne hh.symm
      have h2 : ¬ (p.1 = k') := by
        rw [hp]; exact fun hh => hne hh.symm
      rw [List.find?_cons_of_neg _ (by simpa using h1),
        List.find?_cons_of_neg _ (by simpa using h2)]
      exact find?_map_set_other k k' v hne rest
    · rw [if_neg hp]
      by_cases hp' : p.1 = k'
      · rw [List.find?_cons_of_pos _ (by simpa using hp'),
          List.find?_cons_of_pos _ (by simpa using hp')]
      · rw [List.find?_cons_of_neg _ (by simpa using hp'),
          List.find?_cons_of_neg _ (by simpa using hp')]
        exact find?_map_set_other k k' v hne rest

lemma find?_append_other (k k' : String) (v : ScoreEntry) (hne : k' ≠ k) :
    ∀ m : List (String × ScoreEntry),
      ((m ++ [(k, v)]).find? (fun p => p.1 = k'))
        = m.find? (fun p => p.1 = k')
  | [] => by
    have h1 : ¬ (((k, v) : String × ScoreEntry).1 = k') :=
      fun hh => hne hh.symm
    simp only [List.nil_append]
    rw [List.find?_cons_of_neg _ (by simpa using h1)]
  | p :: rest => by
    simp only [List.cons_append]
    by_cases hp' : p.1 = k'
    · rw [List.find?_cons_of_pos _ (by simpa using hp'),
        List.find?_cons_of_pos _ (by simpa using hp')]
    · rw [List.find?_cons_of_neg _ (by simpa using hp'),
        List.find?_cons_of_neg _ (by simpa using hp')]
      exact find?_append_other k k' v hne rest

lemma dictGet?_dictSet_ne (m : List (String × ScoreEntry)) (k k' : String)
    (v : ScoreEntry) (hne : k' ≠ k) :
    dictGet? (dictSet m k v) k' = dictGet? m k' := by
  unfold dictSet dictGet?
  by_cases h : m.any (fun p => p.1 = k)
  · rw [if_pos h, find?_map_set_other k k' v hne m]
  · rw [if_neg h, find?_append_other k k' v hne m]

lemma dictGet?_dictSet_cases (m : List (String × ScoreEntry)) (k k' : String)
    (v : ScoreEntry) :
    dictGet? (dictSet m k v) k'
      = if k' = k then some v else dictGet? m k' := by
  by_cases h : k' = k
  · subst h; simp [dictGet?_dictSet_self]
  · simp [h, dictGet?_dictSet_ne m k k' v h]

/-! ### Characterisation of the clause-match loop -/

lemma applyClauseMatches_get :
    ∀ (cm : List CMatch) (m : List (String × ScoreEntry)) (k : String)
      (e : ScoreEntry), dictGet? m k = some e →
      dictGet? (applyClauseMatches m cm) k
        = some ((cm.filter
            (fun mt => chunkKey mt.document_id mt.chunk_index = k)).foldl
              applyMatch e)
  | [], m, k, e, h => by simpa [applyClauseMatches] using h
  | mt :: rest, m, k, e, h => by
    have step :
        applyClauseMatches m (mt :: rest)
          = applyClauseMatches
              (match dictGet? m (chunkKey mt.document_id mt.chunk_index) with
               | none => m
               | some e₂ =>
                   dictSet m (chunkKey mt.document_id mt.chunk_index)
                     (applyMatch e₂ mt)) rest := by
      simp [applyClauseMatches]
    by_cases hk : chunkKey mt.document_id mt.chunk_index = k
    · rw [step, hk, h]
      have h' : dictGet? (dictSet m k (applyMatch e mt)) k
          = some (applyMatch e mt) := dictGet?_dictSet_self m k (applyMatch e mt)
      rw [applyClauseMatches_get rest _ k (applyMatch e mt) h']
      simp [List.filter, hk]
    · rw [step]
      cases hm : dictGet? m (chunkKey mt.document_id mt.chunk_index) with
      | none =>
        rw [applyClauseMatches_get rest m k e h]
        simp [List.filter, hk]
      | some e₂ =>
        have h' : dictGet? (dictSet m (chunkKey mt.document_id mt.chunk_index)
            (applyMatch e₂ mt)) k = some e := by
          rw [dictGet?_dictSet_ne _ _ _ _ (fun hh => hk hh.symm)]
          exact h
        rw [applyClauseMatches_get rest _ k e h']
        simp [List.filter, hk]

/-! ### Invariant of the vector-scoring loop -/

lemma scoreVectorChunks_combined_eq_vector (vc : List VChunk) :
    ∀ k e, dictGet? (scoreVectorChunks vc) k = some e →
      e.combined_score = e.vector_score ∧ e.search_pass = e.search_pass := by
  suffices h : ∀ (l : List VChunk) (m : List (String × ScoreEntry)),
      (∀ k e, dictGet? m k = some e → e.combined_score = e.vector_score) →
      (∀ k e, dictGet? (l.foldl (fun m c =>
          dictSet m (chunkKey c.document_id c.chunk_index)
            { chunk := c, vector_score := c.score, clause_score := 0,
              combined_score := c.score, search_pass := c.search_pass }) m) k
          = some e → e.combined_score = e.vector_score) by
    intro k e he
    exact ⟨h vc [] (by intro k e hh; simp [dictGet?] at hh) k e he, rfl⟩
  intro l
  induction l with
  | nil => intro m hm; exact hm
  | cons c rest ih =>
    intro m hm
    apply ih
    intro k e he
    rw [dictGet?_dictSet_cases] at he
    by_cases hk : k = chunkKey c.document_id c.chunk_index
    · simp [hk] at he
      rw [← he]
    · simp [hk] at he
      exact hm k e he

/-! ### Fields preserved by the clause-match update, and its fold -/

lemma applyMatch_vector (e : ScoreEntry) (mt : CMatch) :
    (applyMatch e mt).vector_score = e.vector_score := rfl

lemma applyMatch_pass (e : ScoreEntry) (mt : CMatch) :
    (applyMatch e mt).search_pass = e.search_pass := rfl

lemma foldl_applyMatch_combined :
    ∀ (ms : List CMatch) (e : ScoreEntry),
      (ms.getLast?).elim
        ((ms.foldl applyMatch e).combined_score = e.combined_score)
        (fun mt => (ms.foldl applyMatch e).combined_score
          = 6/10 * e.vector_score + 3/10 * mt.confidence
            + 1/10 * (if e.search_pass = 0 then (1/10 : ℚ) else 0))
  | [], e => by simp
  | [mt], e => by simp [applyMatch]
  | mt :: mt' :: rest, e => by
    have h := foldl_applyMatch_combined (mt' :: rest) (applyMatch e mt)
    have hlast : (mt :: mt' :: rest).getLast? = (mt' :: rest).getLast? := by
      simp [List.getLast?]
    rw [List.foldl_cons, hlast]
    cases hl : (mt' :: rest).getLast? with
    | none => simp at hl
    | some mlast =>
      rw [hl] at h
      simpa [applyMatch_vector, applyMatch_pass] using h

/-- C2 (amended): in the fused score dict built by `_select_best_chunks`,
a chunk hit by at least one clause match gets
`combined = 0.6·vector + 0.3·confidence_of_last_match + 0.1·pass_bonus`
(`pass_bonus = 0.1` iff found in pass 0), while a chunk with **no** clause
match keeps `combined = vector_score` — not the fused formula with
`confidence = 0` that the spec claims. -/
theorem c2_fusion_formula_amended (vc : List VChunk) (cm : List CMatch)
    (k : String) (e : ScoreEntry)
    (h : dictGet? (chunk_scores vc cm) k = some e) :
    ((cm.filter (fun mt => chunkKey mt.document_id mt.chunk_index = k)).getLast?).elim
      (e.combined_score = e.vector_score)
      (fun mt => e.combined_score
        = 6/10 * e.vector_score + 3/10 * mt.confidence
          + 1/10 * (if e.search_pass = 0 then (1/10 : ℚ) else 0)) := by
  unfold chunk_scores at h
  cases h0 : dictGet? (scoreVectorChunks vc) k with
  | none =>
    exfalso
    -- a key absent from the vector dict can never appear after the match loop
    have habs : ∀ (cms : List CMatch) (m : List (String × ScoreEntry)),
        dictGet? m k = none → dictGet? (applyClauseMatches m cms) k = none := by
      intro cms
      induction cms with
      | nil => intro m hm; simpa [applyClauseMatches] using hm
      | cons mt rest ih =>
        intro m hm
        have step :
            applyClauseMatches m (mt :: rest)
              = applyClauseMatches
                  (match dictGet? m (chunkKey mt.document_id mt.chunk_index) with
                   | none => m
                   | some e₂ =>
                       dictSet m (chunkKey mt.document_id mt.chunk_index)
                         (applyMatch e₂ mt)) rest := by
          simp [applyClauseMatches]
        rw [step]
        cases hm2 : dictGet? m (chunkKey mt.document_id mt.chunk_index) with
        | none => exact ih m hm
        | some e₂ =>
          apply ih
          by_cases hk : k = chunkKey mt.document_id mt.chunk_index
          · rw [← hk] at hm2; rw [hm2] at hm; cases hm
          · rw [dictGet?_dictSet_ne _ _ _ _ hk]; exact hm
    rw [habs cm _ h0] at h
    cases h
  | some e0 =>
    have hchar := applyClauseMatches_get cm (scoreVectorChunks vc) k e0 h0
    rw [hchar] at h
    have he : e = (cm.filter
        (fun mt => chunkKey mt.document_id mt.chunk_index = k)).foldl
          applyMatch e0 := by
      cases h; rfl
    have hbase := (scoreVectorChunks_combined_eq_vector vc k e0 h0).1
    have hfold := foldl_applyMatch_combined
      (cm.filter (fun mt => chunkKey mt.document_id mt.chunk_index = k)) e0
    -- vector_score and search_pass are invariant under the fold
    have hfields : ∀ (ms : List CMatch) (e' : ScoreEntry),
        (ms.foldl applyMatch e').vector_score = e'.vector_score ∧
        (ms.foldl applyMatch e').search_pass = e'.search_pass := by
      intro ms
      induction ms with
      | nil => intro e'; exact ⟨rfl, rfl⟩
      | cons mt rest ih =>
        intro e'
        simpa [applyMatch_vector, applyMatch_pass] using ih (applyMatch e' mt)
    cases hl : (cm.filter
        (fun mt => chunkKey mt.document_id mt.chunk_index = k)).getLast? with
    | none =>
      rw [hl] at hfold
      show e.combined_score = e.vector_score
      rw [he, hfold, hbase, ← (hfields _ e0).1]
    | some mlast =>
      rw [hl] at hfold
      show e.combined_score
        = 6/10 * e.vector_score + 3/10 * mlast.confidence
          + 1/10 * (if e.search_pass = 0 then (1/10 : ℚ) else 0)
      rw [he, hfold, (hfields _ e0).1, (hfields _ e0).2]

/-- Concrete chunk for the C2 counterexample and witness. -/
def c2chunk : VChunk :=
  { document_id := "d", chunk_index := 0, score := 1/2, search_pass := 0,
    text := "t", matched_query := "q" }

/-- C2 (counterexample): a retrieved chunk with vector score `0.5`, found
in pass 0 and hit by **no** clause match, is ranked with fused score
`0.5` (its raw vector score), not `0.6·0.5 + 0.3·0 + 0.1·0.1 = 0.31` as
the claim's formula with `clause_confidence = 0` requires. -/
theorem c2_unmatched_chunk_keeps_vector_score :
    (dictGet? (chunk_scores [c2chunk] []) (chunkKey "d" 0)).map
        (fun e => e.combined_score) = some (1/2 : ℚ) ∧
    ¬ ((1/2 : ℚ) = 6/10 * (1/2) + 3/10 * 0 + 1/10 * (1/10)) := by
  exact ⟨by rfl, by norm_num⟩

/-- The score-dict entry reached in the C2 witness. -/
def c2entry : ScoreEntry :=
  { chunk := c2chunk, vector_score := 1/2, clause_score := 1,
    combined_score := 6/10 * (1/2) + 3/10 * 1 + 1/10 * (1/10),
    search_pass := 0 }

/-- Witness for `c2_fusion_formula_amended` at a concrete input: one chunk,
one clause match of confidence 1; the hypothesis is discharged by
computation and the amended formula instantiates to a closed fact. -/
theorem c2_fusion_formula_amended_witness :
    ((([{ document_id := "d", chunk_index := 0, confidence := 1 }] :
        List CMatch).filter
          (fun mt => chunkKey mt.document_id mt.chunk_index
            = chunkKey "d" 0)).getLast?).elim
      (c2entry.combined_score = c2entry.vector_score)
      (fun mt => c2entry.combined_score
        = 6/10 * c2entry.vector_score + 3/10 * mt.confidence
          + 1/10 * (if c2entry.search_pass = 0 then (1/10 : ℚ) else 0)) :=
  c2_fusion_formula_amended [c2chunk]
    [{ document_id := "d", chunk_index := 0, confidence := 1 }]
    (chunkKey "d" 0) c2entry (by rfl)

/-! ## C8 — context chunk counts
(`LLMClient._get_chunk_limit`, `LLMClient._prepare_enhanced_context`,
together with `QueryProcessor._select_best_chunks`)

`_select_best_chunks` (`query_processor.py:1031`) always returns the top
**5** fused chunks; `_prepare_enhanced_context` (`llm_client.py:630`) then
truncates what it receives to `_get_chunk_limit` (8 for the complex query
types, 6 otherwise) — but it can never receive more than 5. -/

inductive QueryType where
  | grace_period | waiting_period | coverage_details | exclusions
  | numerical_limits | definitions | uin_regulatory | air_ambulance
  | maternity_wellbaby | table_benefits | general
  deriving DecidableEq

def complex_types : List QueryType :=
  [QueryType.exclusions, QueryType.table_benefits,
   QueryType.coverage_details, QueryType.maternity_wellbaby]

def get_chunk_limit (t : QueryType) : Nat :=
  if t ∈ complex_types then 8 else 6

/-- Keyword table of `_filter_chunks_by_query_type` (`llm_client.py:674`). -/
def type_keywords (t : QueryType) : List String :=
  match t with
  | QueryType.grace_period => ["grace", "premium", "payment", "thirty", "renewal"]
  | QueryType.waiting_period => ["waiting", "months", "years", "continuous", "exclusion"]
  | QueryType.numerical_limits =>
      ["%", "limit", "maximum", "minimum", "room", "icu", "co-payment", "copay", "base"]
  | QueryType.uin_regulatory => ["uin", "product", "base", "authority", "licensed"]
  | QueryType.air_ambulance => ["air", "ambulance", "helicopter", "distance", "km"]
  | QueryType.maternity_wellbaby => ["mother", "baby", "maternity", "newborn", "routine"]
  | QueryType.exclusions => ["exclusion", "excluded", "not covered", "exception"]
  | QueryType.definitions => ["definition", "means", "hospital", "qualified", "inpatient", "beds"]
  | QueryType.table_benefits => ["table", "benefits", "schedule", "payment"]
  | QueryType.coverage_details => ["coverage", "covered", "benefits", "indemnity"]
  | QueryType.general => []

/-- `_filter_chunks_by_query_type`: attach
`type_relevance = min(1.0, 0.1 · #keywords present in the lowered text)`. -/
def filter_chunks_by_query_type (chunks : List VChunk) (t : QueryType) :
    List (VChunk × ℚ) :=
  chunks.map (fun c =>
    let tl := pyLower c.text.toList
    let cnt := ((type_keywords t).filter
      (fun kw => listContains tl kw.toList)).length
    (c, min 1 ((cnt : ℚ) * (1/10))))

/-- `_prepare_enhanced_context`: sort by `score + type_relevance`
descending (stable), truncate to the chunk limit, emit one
`[SECTION i]` part per chunk whose stripped text is non-empty
(`i` counts all considered chunks, starting at 1). -/
def prepare_context_parts (chunks : List VChunk) (t : QueryType) :
    List String :=
  if chunks.isEmpty then []
  else
    ((((filter_chunks_by_query_type chunks t).mergeSort
        (fun a b => decide (b.1.score + b.2 ≤ a.1.score + a.2))).take
          (get_chunk_limit t)).enum).filterMap (fun p =>
      if (pyStrip p.2.1.text.toList).isEmpty then none
      else some ("[SECTION " ++ toString (p.1 + 1) ++ "]"
          ++ " [MATCHED: " ++ String.mk (p.2.1.matched_query.toList.take 30)
          ++ "...]" ++ "\n" ++ String.mk (pyStrip p.2.1.text.toList)))

/-- The context string handed to the LLM (`"\n\n".join(context_parts)`). -/
def prepare_enhanced_context (chunks : List VChunk) (t : QueryType) : String :=
  String.intercalate "\n\n" (prepare_context_parts chunks t)

/-! ### Generic counting lemmas for the C8 theorems -/

lemma length_filterMap_le' {α β : Type} (f : α → Option β) (l : List α) :
    (l.filterMap f).length ≤ l.length := by
  induction l with
  | nil => simp
  | cons a rest ih =>
    rw [List.filterMap_cons]
    cases f a with
    | none => exact Nat.le_succ_of_le ih
    | some b => simpa using ih

lemma prepare_context_parts_length_le (chunks : List VChunk) (t : QueryType) :
    (prepare_context_parts chunks t).length ≤ chunks.length := by
  unfold prepare_context_parts
  by_cases h : chunks.isEmpty
  · simp [h]
  · simp only [h, if_false]
    calc ((((filter_chunks_by_query_type chunks t).mergeSort
            (fun a b => decide (b.1.score + b.2 ≤ a.1.score + a.2))).take
              (get_chunk_limit t)).enum.filterMap _).length
        ≤ (((filter_chunks_by_query_type chunks t).mergeSort
            (fun a b => decide (b.1.score + b.2 ≤ a.1.score + a.2))).take
              (get_chunk_limit t)).enum.length := length_filterMap_le' _ _
      _ = (((filter_chunks_by_query_type chunks t).mergeSort
            (fun a b => decide (b.1.score + b.2 ≤ a.1.score + a.2))).take
              (get_chunk_limit t)).length := List.enum_length
      _ ≤ ((filter_chunks_by_query_type chunks t).mergeSort
            (fun a b => decide (b.1.score + b.2 ≤ a.1.score + a.2))).length :=
          (List.take_sublist _ _).length_le
      _ = (filter_chunks_by_query_type chunks t).length :=
          List.length_mergeSort _
      _ = chunks.length := by
          unfold filter_chunks_by_query_type; exact List.length_map _ _

lemma select_best_chunks_length_le (vc : List VChunk) (cm : List CMatch) :
    (select_best_chunks vc cm).length ≤ 5 := by
  unfold select_best_chunks
  rw [List.length_map]
  exact List.length_take_le _ _

/-- C8 (amended): the fused selection always hands at most **5** chunks to
the context builder, for every query type; the LLM-side limit is 8 for the
complex types (Exclusions, TableBenefits, CoverageDetails,
MaternityWellBaby) and 6 otherwise, so the 6–8 window claimed for complex
types is unreachable — every query type gets at most 5 context sections. -/
theorem c8_context_chunks_at_most_five (vc : List VChunk) (cm : List CMatch)
    (t : QueryType) :
    (prepare_context_parts (select_best_chunks vc cm) t).length ≤ 5 ∧
    (t ∈ complex_types → get_chunk_limit t = 8) ∧
    (t ∉ complex_types → get_chunk_limit t = 6) := by
  refine ⟨?_, ?_, ?_⟩
  · exact le_trans (prepare_context_parts_length_le _ _)
      (select_best_chunks_length_le vc cm)
  · intro h; unfold get_chunk_limit; rw [if_pos h]
  · intro h; unfold get_chunk_limit; rw [if_neg h]

/-! ### Membership lemmas used by the C8 counterexample -/

lemma mem_dictSet (m : List (String × ScoreEntry)) (k : String)
    (v : ScoreEntry) (q : String × ScoreEntry) (h : q ∈ dictSet m k v) :
    q = (k, v) ∨ q ∈ m := by
  unfold dictSet at h
  by_cases hp : m.any (fun p => p.1 = k)
  · rw [if_pos hp] at h
    rcases List.mem_map.mp h with ⟨p, hpm, hq⟩
    by_cases hpk : p.1 = k
    · left; rw [← hq, if_pos hpk]
    · right; rw [← hq, if_neg hpk]; exact hpm
  · rw [if_neg hp] at h
    rcases List.mem_append.mp h with h1 | h1
    · right; exact h1
    · left; simpa using h1
lemma mem_scoreVectorChunks_fold :
    ∀ (l : List VChunk) (m : List (String × ScoreEntry))
      (q : String × ScoreEntry),
      q ∈ l.foldl (fun m c =>
        dictSet m (chunkKey c.document_id c.chunk_index)
          { chunk := c, vector_score := c.score, clause_score := 0,
            combined_score := c.score, search_pass := c.search_pass }) m →
      q.2.chunk ∈ l ∨ q ∈ m
  | [], m, q, h => Or.inr h
  | c :: rest, m, q, h => by
    rcases mem_scoreVectorChunks_fold rest _ q h with h1 | h1
    · exact Or.inl (List.mem_cons_of_mem _ h1)
    · rcases mem_dictSet _ _ _ _ h1 with h2 | h2
      · left
        rw [h2]
        exact List.mem_cons_self _ _
      · exact Or.inr h2

lemma mem_select_best_chunks (vc : List VChunk) (c : VChunk)
    (h : c ∈ select_best_chunks vc []) : c ∈ vc := by
  unfold select_best_chunks at h
  rcases List.mem_map.mp h with ⟨e, he, hc⟩
  have he2 := List.mem_of_mem_take he
  have he3 := List.mem_mergeSort.mp he2
  rcases List.mem_map.mp he3 with ⟨p, hpm, hpe⟩
  have hp : p ∈ scoreVectorChunks vc := by
    simpa [chunk_scores, applyClauseMatches] using hpm
  rcases mem_scoreVectorChunks_fold vc [] p hp with h1 | h1
  · rw [← hc, ← hpe]; exact h1
  · cases h1

lemma snd_mem_of_mem_enumFrom {α : Type} :
    ∀ (l : List α) (n : Nat) (p : Nat × α), p ∈ l.enumFrom n → p.2 ∈ l
  | [], _, _, h => by cases h
  | a :: rest, n, p, h => by
    rcases List.mem_cons.mp h with h1 | h1
    · rw [h1]; exact List.mem_cons_self _ _
    · exact List.mem_cons_of_mem _ (snd_mem_of_mem_enumFrom rest (n+1) p h1)

lemma length_filterMap_all_some {α β : Type} (f : α → Option β) :
    ∀ (l : List α), (∀ x ∈ l, (f x).isSome) →
      (l.filterMap f).length = l.length
  | [], _ => rfl
  | a :: rest, h => by
    rw [List.filterMap_cons]
    cases hf : f a with
    | none =>
      exfalso
      have := h a (List.mem_cons_self _ _)
      rw [hf] at this
      cases this
    | some b =>
      simp only [List.length_cons]
      rw [length_filterMap_all_some f rest
        (fun x hx => h x (List.mem_cons_of_mem _ hx))]

lemma prepare_context_parts_length_of_nonempty (chunks : List VChunk)
    (t : QueryType)
    (hne : ∀ c ∈ chunks, (pyStrip c.text.toList).isEmpty = false)
    (hlen : chunks.length ≤ get_chunk_limit t) :
    (prepare_context_parts chunks t).length = chunks.length := by
  unfold prepare_context_parts
  by_cases h0 : chunks.isEmpty
  · rw [if_pos h0]
    cases chunks with
    | nil => rfl
    | cons a l => cases h0
  · rw [if_neg h0]
    have hsortlen : ((filter_chunks_by_query_type chunks t).mergeSort
        (fun a b => decide (b.1.score + b.2 ≤ a.1.score + a.2))).length
          = chunks.length := by
      rw [List.length_mergeSort]
      unfold filter_chunks_by_query_type
      exact List.length_map _ _
    have htake : (((filter_chunks_by_query_type chunks t).mergeSort
        (fun a b => decide (b.1.score + b.2 ≤ a.1.score + a.2))).take
          (get_chunk_limit t))
        = (filter_chunks_by_query_type chunks t).mergeSort
            (fun a b => decide (b.1.score + b.2 ≤ a.1.score + a.2)) :=
      List.take_of_length_le (by rw [hsortlen]; exact hlen)
    rw [htake]
    rw [length_filterMap_all_some _ _ ?_, List.enum_length, hsortlen]
    intro p hp
    have hmem := snd_mem_of_mem_enumFrom _ 0 p hp
    have hmem2 := List.mem_mergeSort.mp hmem
    rcases List.mem_map.mp hmem2 with ⟨c, hcm, hcp⟩
    have hno : (pyStrip p.2.1.text.toList).isEmpty = false := by
      rw [← hcp]; exact hne c hcm
    simp only [hno, Bool.false_eq_true, if_false, Option.isSome_some]

/-- The seven retrieved chunks of the C8 counterexample. -/
def c8chunks : List VChunk :=
  [{ document_id := "d", chunk_index := 0, score := 0, search_pass := 0,
     text := "t0", matched_query := "q" },
   { document_id := "d", chunk_index := 1, score := 0, search_pass := 0,
     text := "t1", matched_query := "q" },
   { document_id := "d", chunk_index := 2, score := 0, search_pass := 0,
     text := "t2", matched_query := "q" },
   { document_id := "d", chunk_index := 3, score := 0, search_pass := 0,
     text := "t3", matched_query := "q" },
   { document_id := "d", chunk_index := 4, score := 0, search_pass := 0,
     text := "t4", matched_query := "q" },
   { document_id := "d", chunk_index := 5, score := 0, search_pass := 0,
     text := "t5", matched_query := "q" },
   { document_id := "d", chunk_index := 6, score := 0, search_pass := 0,
     text := "t6", matched_query := "q" }]

/-- C8 (counterexample): with 7 retrieved chunks (all with non-empty
text) and the complex query type `Exclusions`, the LLM receives exactly
**5** context sections — not the 6–8 the claim promises for complex
types, because the fusion step already truncated to the top 5. -/
theorem c8_complex_type_gets_only_five :
    (prepare_context_parts (select_best_chunks c8chunks [])
        QueryType.exclusions).length = 5 ∧
    QueryType.exclusions ∈ complex_types ∧
    ¬ (6 ≤ (prepare_context_parts (select_best_chunks c8chunks [])
        QueryType.exclusions).length) := by
  have hsel : (select_best_chunks c8chunks []).length = 5 := by
    unfold select_best_chunks
    rw [List.length_map, List.length_take, List.length_mergeSort,
      List.length_map]
    have h7 : (chunk_scores c8chunks []).length = 7 := by rfl
    rw [h7]
    decide
  have hcount : (prepare_context_parts (select_best_chunks c8chunks [])
      QueryType.exclusions).length = 5 := by
    rw [prepare_context_parts_length_of_nonempty _ _ ?_ ?_, hsel]
    · intro c hc
      have hmem := mem_select_best_chunks c8chunks c hc
      fin_cases hmem <;> rfl
    · rw [hsel]
      decide
  refine ⟨hcount, by decide, ?_⟩
  rw [hcount]
  decide

/-! ## A derivative-based engine for the source's regular expressions

The regexes used by this code base are built from literals, the classes
`\s \d \w [A-Z] [0-9] [A-Z0-9] [\-\s] .`, the operators `* + ?`, and
alternation; a few carry `\b` at one or both ends.  `re.findall` is
modelled as the non-overlapping left-to-right scan taking, at each
position, the longest match (which on these patterns coincides with
Python's leftmost-greedy match). -/

inductive Cls where
  | ws | digit | dashws | upperAZ | upperAZ09 | wordc | anyDot
  deriving DecidableEq

def Cls.mem : Cls → Char → Bool
  | Cls.ws, c => pyIsWs c
  | Cls.digit, c => pyIsDigit c
  | Cls.dashws, c => c = '-' || pyIsWs c
  | Cls.upperAZ, c => pyIsUpperAZ c
  | Cls.upperAZ09, c => pyIsUpperAZ c || pyIsDigit c
  | Cls.wordc, c => pyIsAlpha c || pyIsDigit c || c = '_'
  | Cls.anyDot, c => !(c = '\n')

inductive Rx where
  | emp | eps
  | lit (c : Char)
  | cls (k : Cls)
  | alt (r₁ r₂ : Rx)
  | cat (r₁ r₂ : Rx)
  | star (r : Rx)
  deriving DecidableEq

def Rx.nullable : Rx → Bool
  | Rx.emp => false
  | Rx.eps => true
  | Rx.lit _ => false
  | Rx.cls _ => false
  | Rx.alt a b => a.nullable || b.nullable
  | Rx.cat a b => a.nullable && b.nullable
  | Rx.star _ => true

def Rx.deriv : Rx → Char → Rx
  | Rx.emp, _ => Rx.emp
  | Rx.eps, _ => Rx.emp
  | Rx.lit c, x => if x = c then Rx.eps else Rx.emp
  | Rx.cls k, x => if k.mem x then Rx.eps else Rx.emp
  | Rx.alt a b, x => Rx.alt (a.deriv x) (b.deriv x)
  | Rx.cat a b, x =>
      if a.nullable then Rx.alt (Rx.cat (a.deriv x) b) (b.deriv x)
      else Rx.cat (a.deriv x) b
  | Rx.star r, x => Rx.cat (r.deriv x) (Rx.star r)

/-- Concatenation of a list of regexes. -/
def rxCat : List Rx → Rx
  | [] => Rx.eps
  | [r] => r
  | r :: rest => Rx.cat r (rxCat rest)

/-- A literal string (spaces match literally). -/
def rxLit (s : String) : Rx := rxCat (s.toList.map Rx.lit)

def rxWs0 : Rx := Rx.star (Rx.cls Cls.ws)            -- \s*
def rxWs1 : Rx := Rx.cat (Rx.cls Cls.ws) rxWs0       -- \s+
def rxDig1 : Rx := Rx.cat (Rx.cls Cls.digit) (Rx.star (Rx.cls Cls.digit)) -- \d+
def rxDotStar : Rx := Rx.star (Rx.cls Cls.anyDot)    -- .*
def rxOpt (r : Rx) : Rx := Rx.alt Rx.eps r           -- r?
def rxDashWsOpt : Rx := rxOpt (Rx.cls Cls.dashws)    -- [\-\s]?
def rxWordStar : Rx := Rx.star (Rx.cls Cls.wordc)    -- \w*

/-- A source pattern: a regex plus `\b` markers at either end. -/
structure Pat where
  rx : Rx
  lb : Bool := false
  rb : Bool := false
  deriving DecidableEq

def isWordChar (c : Char) : Bool := Cls.wordc.mem c

/-- Longest `ℓ` such that `rx` matches the first `ℓ` characters and, when
`rb` is set, the character right after the match (if any) is not a word
character.  Folds derivatives once over the text. -/
def longestGo (rb : Bool) : Rx → List Char → Nat → Option Nat → Option Nat
  | r, [], idx, best => if r.nullable then some idx else best
  | r, c :: rest, idx, best =>
      longestGo rb (r.deriv c) rest (idx + 1)
        (if r.nullable && (!rb || !isWordChar c) then some idx else best)

/-- Longest acceptable match of `p` starting at the current position;
`prev` is the character immediately before that position. -/
def longestMatchAt (p : Pat) (prev : Option Char) (cs : List Char) :
    Option Nat :=
  if p.lb && (match prev with | none => false | some c => isWordChar c) then
    none
  else longestGo p.rb p.rx cs 0 none

/-- The non-overlapping scan of `re.findall`, counting matches. -/
def countMatches : Nat → Pat → Option Char → List Char → Nat
  | 0, _, _, _ => 0
  | _ + 1, p, prev, [] =>
      match longestMatchAt p prev [] with
      | some _ => 1
      | none => 0
  | fuel + 1, p, prev, c :: rest =>
      match longestMatchAt p prev (c :: rest) with
      | some (ℓ + 1) =>
          1 + countMatches fuel p (((c :: rest).take (ℓ + 1)).getLast?)
                ((c :: rest).drop (ℓ + 1))
      | some 0 => 1 + countMatches fuel p (some c) rest
      | none => countMatches fuel p (some c) rest

/-- `len(re.findall(p, s))`. -/
def findallCount (p : Pat) (s : Str) : Nat :=
  countMatches (s.length + 1) p none s

/-- The same scan, collecting the matched substrings,
as `re.findall(p, s)` for group-free patterns. -/
def collectMatches : Nat → Pat → Option Char → List Char → List Str
  | 0, _, _, _ => []
  | _ + 1, p, prev, [] =>
      match longestMatchAt p prev [] with
      | some _ => [[]]
      | none => []
  | fuel + 1, p, prev, c :: rest =>
      match longestMatchAt p prev (c :: rest) with
      | some (ℓ + 1) =>
          ((c :: rest).take (ℓ + 1))
            :: collectMatches fuel p (((c :: rest).take (ℓ + 1)).getLast?)
                 ((c :: rest).drop (ℓ + 1))
      | some 0 => [] :: collectMatches fuel p (some c) rest
      | none => collectMatches fuel p (some c) rest

def findallList (p : Pat) (s : Str) : List Str :=
  collectMatches (s.length + 1) p none s

/-- `re.search(p, s) is not None`. -/
def reSearch (p : Pat) (s : Str) : Bool := findallCount p s != 0

/-- Plain pattern: literal text, no `\s` splicing, no boundaries. -/
def pl (s : String) : Pat := { rx := rxLit s }

/-- Words joined by `\s*` (the common `a\s*b` shape). -/
def pw (parts : List String) : Pat :=
  { rx := rxCat (List.intersperse rxWs0 (parts.map rxLit)) }

/-- A bare regex as a pattern without boundaries. -/
def pr (r : Rx) : Pat := { rx := r }

/-! ## C3 — query-type classification (`LLMClient._classify_query_type`)

Source (`app/core/llm_client.py:146`): count `re.findall` matches of each
type's patterns against the lowered question; keep the types with a
positive count in the **insertion order of the `query_patterns` dict**
(GracePeriod, WaitingPeriod, CoverageDetails, Exclusions, NumericalLimits,
Definitions, UINRegulatory, AirAmbulance, MaternityWellbaby,
TableBenefits), then take `max(..., key=score)`, which returns the *first*
entry attaining the maximal score; no votes at all gives General. -/

/-- `s` followed by an optional `s` character (`days?`-style). -/
def rxOptS (s : String) : Rx := Rx.cat (rxLit s) (rxOpt (Rx.lit 's'))

/-- Regex parts joined by `\s*`. -/
def pwx (rs : List Rx) : Pat := { rx := rxCat (List.intersperse rxWs0 rs) }

/-- Regex parts joined by `.*`. -/
def pdot (rs : List Rx) : Pat := { rx := rxCat (List.intersperse rxDotStar rs) }

/-- The `query_patterns` table (`llm_client.py:101`), in dict order. -/
def query_patterns : QueryType → List Pat
  | QueryType.grace_period =>
      [pw ["grace", "period"], pw ["payment", "grace"], pw ["premium", "grace"],
       pw ["renewal", "grace"],
       pwx [rxLit "thirty", rxOptS "day", rxLit "grace"],
       pwx [rxLit "30", rxOptS "day", rxLit "grace"],
       pw ["payment", "window"]]
  | QueryType.waiting_period =>
      [pw ["waiting", "period"], pw ["wait", "period"],
       pw ["exclusion", "period"], pw ["cooling", "period"],
       pwx [rxDig1, rxOptS "month", rxLit "waiting"],
       pwx [rxDig1, rxOptS "year", rxLit "waiting"],
       pw ["continuous", "coverage"]]
  | QueryType.coverage_details =>
      [pl "coverage", pl "covered", pr (rxOptS "benefit"), pl "indemnity",
       pl "compensation", pl "reimbursement",
       pw ["what", "is", "covered"], pw ["coverage", "scope"]]
  | QueryType.exclusions =>
      [pl "exclusion", pl "excluded", pw ["not", "covered"], pl "exception",
       pl "limitation",
       pdot [rxLit "list", rxLit "exclusion"],
       pdot [rxLit "what", rxLit "not", rxLit "covered"],
       pdot [rxLit "circumstances", rxLit "not", rxLit "covered"]]
  | QueryType.numerical_limits =>
      [pl "limit", pl "maximum", pl "minimum", pl "percentage",
       pr (Rx.cat rxDig1 (Rx.lit '%')),
       pr (rxCat [rxLit "sub", rxDashWsOpt, rxLit "limit"]),
       pr (rxCat [rxLit "room", rxWs0, rxLit "rent", rxDotStar, rxLit "limit"]),
       pdot [rxLit "icu", rxLit "limit"],
       pl "1%", pl "2%", pl "5%",
       pr (rxCat [rxLit "co", rxDashWsOpt, rxLit "payment"])]
  | QueryType.definitions =>
      [pl "define", pl "definition", pw ["what", "is"],
       pdot [rxLit "how", rxLit "define"], pw ["meaning", "of"],
       pdot [rxLit "hospital", rxLit "define"],
       pdot [rxLit "what", rxLit "mean"]]
  | QueryType.uin_regulatory =>
      [pl "uin", pw ["unique", "identification"], pw ["base", "product"],
       pl "regulatory", pl "authority",
       pr (Rx.cat (rxLit "license") (rxOpt (Rx.lit 'd'))),
       pl "certification", pl "approval"]
  | QueryType.air_ambulance =>
      [pw ["air", "ambulance"], pl "helicopter", pl "aviation",
       pw ["medical", "helicopter"], pw ["air", "medical"],
       pw ["emergency", "aviation"], pw ["flight", "ambulance"]]
  | QueryType.maternity_wellbaby =>
      [pl "maternity", pl "pregnancy", pw ["well", "mother"],
       pw ["well", "baby"], pl "newborn", pl "infant", pl "childbirth",
       pl "delivery", pw ["baby", "care"]]
  | QueryType.table_benefits =>
      [pw ["table", "of", "benefits"], pw ["benefit", "table"], pl "schedule",
       pw ["benefit", "schedule"], pw ["coverage", "table"],
       pw ["payment", "mode"]]
  | QueryType.general => []

/-- The dict insertion order of `query_patterns`. -/
def query_pattern_order : List QueryType :=
  [QueryType.grace_period, QueryType.waiting_period,
   QueryType.coverage_details, QueryType.exclusions,
   QueryType.numerical_limits, QueryType.definitions,
   QueryType.uin_regulatory, QueryType.air_ambulance,
   QueryType.maternity_wellbaby, QueryType.table_benefits]

/-- `score = sum(len(re.findall(p, question_lower)) for p in patterns)`. -/
def type_score (t : QueryType) (ql : Str) : Nat :=
  ((query_patterns t).map (fun p => findallCount p ql)).sum

/-- The `type_scores` dict: positively-scored types, in insertion order. -/
def classifier_votes (ql : Str) : List (QueryType × Nat) :=
  query_pattern_order.filterMap (fun t =>
    if 0 < type_score t ql then some (t, type_score t ql) else none)

/-- `_classify_query_type`: Python's `max(items, key=...)` keeps the first
entry attaining the maximum. -/
def classify_query_type (q : String) : QueryType :=
  match classifier_votes (pyLower q.toList) with
  | [] => QueryType.general
  | x :: xs =>
      (xs.foldl (fun best y => if y.2 > best.2 then y else best) x).1

/-! ### Spec-side description of the amended tie-break -/

def listMaxSnd {α : Type} (l : List (α × Nat)) : Nat :=
  (l.map (fun z => z.2)).foldr max 0

/-- Stated from the amended claim's words: the classifier returns the
*first* type of the pattern-dict order whose vote count is positive and
maximal, and General when every type has zero votes. -/
def spec_classify_first_max (q : String) : QueryType :=
  match (classifier_votes (pyLower q.toList)).find?
      (fun y => decide (listMaxSnd (classifier_votes (pyLower q.toList)) ≤ y.2)) with
  | some y => y.1
  | none => QueryType.general

lemma listMaxSnd_cons {α : Type} (x : α × Nat) (xs : List (α × Nat)) :
    listMaxSnd (x :: xs) = max x.2 (listMaxSnd xs) := rfl

lemma listMaxSnd_ub {α : Type} :
    ∀ (l : List (α × Nat)) (z : α × Nat), z ∈ l → z.2 ≤ listMaxSnd l
  | x :: xs, z, h => by
    rcases List.mem_cons.mp h with h1 | h1
    · rw [h1, listMaxSnd_cons]; exact Nat.le_max_left _ _
    · rw [listMaxSnd_cons]
      exact le_trans (listMaxSnd_ub xs z h1) (Nat.le_max_right _ _)

lemma listMaxSnd_attained {α : Type} :
    ∀ (l : List (α × Nat)), l ≠ [] → ∃ z ∈ l, z.2 = listMaxSnd l
  | [], h => absurd rfl h
  | x :: xs, _ => by
    cases hxs : xs with
    | nil =>
      refine ⟨x, List.mem_cons_self _ _, ?_⟩
      rw [listMaxSnd_cons]
      simp [listMaxSnd]
    | cons y rest =>
      rcases listMaxSnd_attained xs (by rw [hxs]; exact List.cons_ne_nil _ _)
        with ⟨z, hz, hzM⟩
      rw [← hxs]
      rcases Nat.le_total x.2 (listMaxSnd xs) with hle | hle
      · exact ⟨z, List.mem_cons_of_mem _ hz,
          by rw [hzM, listMaxSnd_cons, Nat.max_eq_right hle]⟩
      · exact ⟨x, List.mem_cons_self _ _,
          by rw [listMaxSnd_cons, Nat.max_eq_left hle]⟩

/-- Python's `max(key=...)` as a fold keeping the first strict maximum: it
returns the first element attaining the maximal value `M`. -/
lemma fold_firstmax {α : Type} (M : Nat) :
    ∀ (xs : List (α × Nat)) (x : α × Nat),
      (∀ z ∈ x :: xs, z.2 ≤ M) → (∃ z ∈ x :: xs, z.2 = M) →
      xs.foldl (fun best y => if y.2 > best.2 then y else best) x
        = ((x :: xs).find? (fun y => decide (M ≤ y.2))).getD x
  | [], x, _, hex => by
    have hxM : x.2 = M := by
      rcases hex with ⟨z, hz, hzM⟩
      have hzx : z = x := by simpa using hz
      rw [← hzx]; exact hzM
    have hp : ((fun y : α × Nat => decide (M ≤ y.2)) x) = true := by
      simp [hxM]
    have e1 : ([x].find? (fun y => decide (M ≤ y.2))) = some x :=
      List.find?_cons_of_pos _ hp
    rw [List.foldl_nil, e1]
    rfl
  | y :: rest, x, hub, hex => by
    simp only [List.foldl_cons]
    by_cases hxy : y.2 > x.2
    · rw [if_pos hxy]
      have hyM : y.2 ≤ M :=
        hub y (List.mem_cons_of_mem _ (List.mem_cons_self _ _))
      have hexy : ∃ z ∈ y :: rest, z.2 = M := by
        rcases hex with ⟨z, hz, hzM⟩
        rcases List.mem_cons.mp hz with h1 | h1
        · exfalso
          rw [h1] at hzM
          exact absurd (lt_of_lt_of_le hxy (hzM ▸ hyM)) (lt_irrefl _)
        · exact ⟨z, h1, hzM⟩
      have hUBy : ∀ z ∈ y :: rest, z.2 ≤ M :=
        fun z hz => hub z (List.mem_cons_of_mem _ hz)
      rw [fold_firstmax M rest y hUBy hexy]
      have hxlt : x.2 < M :=
        lt_of_lt_of_le hxy hyM
      have hpx : ¬ ((fun y : α × Nat => decide (M ≤ y.2)) x = true) := by
        simpa using Nat.not_le.mpr hxlt
      have e1 : ((x :: y :: rest).find? (fun y => decide (M ≤ y.2)))
          = ((y :: rest).find? (fun y => decide (M ≤ y.2))) :=
        List.find?_cons_of_neg _ hpx
      rw [e1]
      rcases hexy with ⟨z, hz, hzM⟩
      have hsome : ((y :: rest).find? (fun y => decide (M ≤ y.2))).isSome := by
        rw [List.find?_isSome]
        exact ⟨z, hz, by simp [hzM]⟩
      rcases Option.isSome_iff_exists.mp hsome with ⟨w, hw⟩
      rw [hw]
      rfl
    · rw [if_neg hxy]
      have hyx : y.2 ≤ x.2 := Nat.le_of_not_lt hxy
      have hexx : ∃ z ∈ x :: rest, z.2 = M := by
        rcases hex with ⟨z, hz, hzM⟩
        rcases List.mem_cons.mp hz with h1 | h1
        · exact ⟨x, List.mem_cons_self _ _, by rw [← h1]; exact hzM⟩
        · rcases List.mem_cons.mp h1 with h2 | h2
          · refine ⟨x, List.mem_cons_self _ _, ?_⟩
            rw [h2] at hzM
            have hxM : x.2 ≤ M := hub x (List.mem_cons_self _ _)
            exact Nat.le_antisymm hxM (hzM ▸ hyx)
          · exact ⟨z, List.mem_cons_of_mem _ h2, hzM⟩
      have hUBx : ∀ z ∈ x :: rest, z.2 ≤ M := by
        intro z hz
        rcases List.mem_cons.mp hz with h1 | h1
        · rw [h1]; exact hub x (List.mem_cons_self _ _)
        · exact hub z (List.mem_cons_of_mem _ (List.mem_cons_of_mem _ h1))
      rw [fold_firstmax M rest x hUBx hexx]
      by_cases hpx : ((fun y : α × Nat => decide (M ≤ y.2)) x = true)
      · have e1 : ((x :: rest).find? (fun y => decide (M ≤ y.2))) = some x :=
          List.find?_cons_of_pos _ hpx
        have e2 : ((x :: y :: rest).find? (fun y => decide (M ≤ y.2)))
            = some x :=
          List.find?_cons_of_pos _ hpx
        rw [e1, e2]
      · have hxM : ¬ M ≤ x.2 := by simpa using hpx
        have hpy : ¬ ((fun y : α × Nat => decide (M ≤ y.2)) y = true) := by
          simpa using Nat.not_le.mpr (lt_of_le_of_lt hyx (Nat.lt_of_not_le hxM))
        have e1 : ((x :: rest).find? (fun y => decide (M ≤ y.2)))
            = (rest.find? (fun y => decide (M ≤ y.2))) :=
          List.find?_cons_of_neg _ hpx
        have e2 : ((x :: y :: rest).find? (fun y => decide (M ≤ y.2)))
            = ((y :: rest).find? (fun y => decide (M ≤ y.2))) :=
          List.find?_cons_of_neg _ hpx
        have e3 : ((y :: rest).find? (fun y => decide (M ≤ y.2)))
            = (rest.find? (fun y => decide (M ≤ y.2))) :=
          List.find?_cons_of_neg _ hpy
        rw [e1, e2, e3]

/-- C3 (amended): the classifier returns the type with the most pattern
votes, ties broken by the **pattern-dict insertion order**
GracePeriod ≻ WaitingPeriod ≻ CoverageDetails ≻ Exclusions ≻
NumericalLimits ≻ Definitions ≻ UINRegulatory ≻ AirAmbulance ≻
MaternityWellbaby ≻ TableBenefits (not the priority order the spec
claims), and General when every type has zero votes. -/
theorem c3_classifier_first_max_in_dict_order (q : String) :
    classify_query_type q = spec_classify_first_max q := by
  unfold classify_query_type spec_classify_first_max
  cases hv : classifier_votes (pyLower q.toList) with
  | nil => rfl
  | cons x xs =>
    show (xs.foldl (fun best y => if y.2 > best.2 then y else best) x).1 = _
    rw [fold_firstmax (listMaxSnd (x :: xs)) xs x
      (fun z hz => listMaxSnd_ub _ z hz)
      (listMaxSnd_attained _ (List.cons_ne_nil _ _))]
    rcases listMaxSnd_attained (x :: xs) (List.cons_ne_nil _ _)
      with ⟨z, hz, hzM⟩
    have hsome : ((x :: xs).find?
        (fun y => decide (listMaxSnd (x :: xs) ≤ y.2))).isSome := by
      rw [List.find?_isSome]
      exact ⟨z, hz, by simp [hzM]⟩
    rcases Option.isSome_iff_exists.mp hsome with ⟨w, hw⟩
    rw [hw]
    rfl

/-- C3 (counterexample): `"grace period limit"` scores exactly one vote
for GracePeriod (`grace\s*period`) and one for NumericalLimits (`limit`) —
a tie — and the code returns **GracePeriod**, whereas the claimed priority
order `Numerical ≻ … ≻ GracePeriod` demands NumericalLimits. -/
theorem c3_tie_goes_to_grace_period_not_numerical :
    classify_query_type "grace period limit" = QueryType.grace_period ∧
    type_score QueryType.grace_period (pyLower "grace period limit".toList) = 1 ∧
    type_score QueryType.numerical_limits (pyLower "grace period limit".toList) = 1 ∧
    QueryType.grace_period ≠ QueryType.numerical_limits := by
  refine ⟨by decide, by decide, by decide, by decide⟩

/-! ## Clause matcher (`app/core/clause_matcher.py`) — data for C6, C9, C10

The ~24 clause families with their regex patterns (`clause_patterns`,
lines 43–245), transcribed pattern for pattern.  Patterns written with
upper-case letters in the source (`PED`, `UIN`, `AYUSH`, `plan\s*A`,
`1%\s*of\s*SI`, `ICU\s*limit`) are kept verbatim: they are matched against
lower-cased text and can therefore never fire — exactly as in the code. -/

inductive ClauseT where
  | waiting_period | grace_period | coverage | exclusion | premium
  | maternity | pre_existing | deductible | air_ambulance | distance_travel
  | well_mother | well_baby | routine_care | regulatory | licensing
  | table_benefits | multiple_birth | proportionate_payment | period_options
  | medical_examination | sum_insured_limits | plan_types | ayush_treatment
  | hospital_definition | general
  deriving DecidableEq

def clause_patterns : ClauseT → List Pat
  | ClauseT.waiting_period =>
      [pl "waiting period",
       pr (rxCat [rxLit "wait", rxOpt (rxLit "ing"), rxWs1, rxLit "time"]),
       pl "cooling off period", pl "exclusion period", pl "probation period",
       pl "elimination period", pl "pre-coverage period", pl "initial waiting",
       pl "qualification period",
       { rx := rxCat [rxDig1, rxWs0, rxOptS "month", rxWs0, rxLit "waiting"],
         lb := true },
       { rx := rxCat [rxDig1, rxWs0, rxOptS "year", rxWs0, rxLit "waiting"],
         lb := true },
       pr (rxCat [rxLit "continuous coverage", rxWs0, rxDig1]),
       pr (rxCat [rxLit "from inception", rxWs0, rxDig1]),
       pr (rxCat [rxLit "policy commencement", rxWs0, rxDig1]),
       pr (rxCat [rxLit "thirty", rxDashWsOpt, rxLit "six", rxWs0, rxLit "months"]),
       pwx [rxLit "24", rxLit "months", rxLit "waiting"],
       pwx [rxLit "two", rxOptS "year", rxLit "waiting"],
       pwx [rxLit "36", rxOptS "month", rxLit "continuous"],
       pwx [rxLit "waiting", rxLit "period", rxLit "of", rxDig1],
       pwx [rxLit "wait", rxLit "for", rxDig1]]
  | ClauseT.grace_period =>
      [pl "grace period", pl "grace time", pl "payment grace", pl "premium grace",
       pwx [rxLit "grace", rxOptS "day"],
       pw ["payment", "window"], pw ["premium", "extension"],
       pw ["renewal", "grace"],
       pwx [rxLit "thirty", rxOptS "day", rxLit "grace"],
       pwx [rxLit "30", rxOptS "day", rxLit "grace"],
       pw ["payment", "tolerance"], pw ["late", "payment", "allowance"],
       pw ["premium", "payment", "grace"], pw ["renewal", "extension"],
       pw ["policy", "continuation"], pw ["continuity", "grace"],
       pw ["uninterrupted", "coverage"]]
  | ClauseT.coverage =>
      [pl "coverage", pl "covered", pr (rxOptS "benefit"), pl "indemnity",
       pl "compensation", pl "reimbursement", pl "protection",
       pw ["insured", "amount"], pw ["sum", "insured"], pw ["policy", "limit"],
       pw ["maximum", "coverage"], pw ["benefit", "limit"],
       pw ["covered", "expenses"], pw ["eligible", "expenses"],
       pw ["payable", "benefits"], pw ["insured", "benefits"],
       pw ["medical", "coverage"], pw ["treatment", "coverage"],
       pw ["hospitalization", "benefits"], pw ["surgical", "benefits"],
       pw ["therapeutic", "benefits"], pw ["diagnostic", "coverage"]]
  | ClauseT.exclusion =>
      [pl "exclusion", pl "excluded", pl "not covered", pl "exception",
       pl "limitation", pl "restriction", pw ["excluded", "condition"],
       pr (rxCat [rxLit "non", rxDashWsOpt, rxLit "covered"]),
       pw ["not", "payable"], pl "disallowed", pl "ineligible",
       pr (rxCat [rxLit "non", rxDashWsOpt, rxLit "reimbursable"]),
       pw ["excluded", "treatment"], pw ["excluded", "service"],
       pw ["excluded", "benefit"], pw ["policy", "exclusions"],
       pw ["coverage", "exclusions"], pw ["benefit", "exclusions"],
       pw ["treatment", "exclusions"]]
  | ClauseT.premium =>
      [pl "premium", pl "payment", pl "installment", pl "contribution",
       pw ["policy", "payment"], pw ["insurance", "premium"],
       pw ["premium", "amount"], pw ["premium", "charges"],
       pw ["policy", "charges"], pw ["premium", "cost"], pw ["premium", "rate"],
       pw ["annual", "premium"], pw ["monthly", "premium"],
       pw ["quarterly", "premium"], pw ["premium", "due"],
       pw ["payment", "schedule"], pw ["premium", "payment"],
       pw ["installment", "payment"]]
  | ClauseT.maternity =>
      [pl "maternity", pl "pregnancy", pl "childbirth", pl "delivery",
       pl "obstetric", pl "prenatal", pl "postnatal", pl "antenatal",
       pl "maternal", pw ["expectant", "mother"], pw ["pregnant", "woman"],
       pl "newborn", pl "confinement", pw ["labor", "and", "delivery"],
       pl "caesarean", pr (rxCat [rxLit "c", rxDashWsOpt, rxLit "section"]),
       pw ["normal", "delivery"], pw ["pregnancy", "care"],
       pw ["maternity", "expenses"], pw ["pregnancy", "coverage"],
       pw ["maternity", "benefits"]]
  | ClauseT.pre_existing =>
      [pr (rxCat [rxLit "pre", rxDashWsOpt, rxLit "existing"]),
       pw ["existing", "condition"], pw ["prior", "condition"],
       pw ["previous", "illness"],
       pr (rxCat [rxLit "pre", rxDashWsOpt, rxLit "existing", rxWs0, rxLit "disease"]),
       pl "PED", pw ["existing", "medical", "condition"],
       pw ["prior", "medical", "history"], pw ["chronic", "condition"],
       pw ["hereditary", "condition"], pw ["congenital", "condition"],
       pw ["existing", "ailment"], pw ["prior", "ailment"],
       pw ["existing", "disease"],
       pr (rxCat [rxLit "pre", rxDashWsOpt, rxLit "existing", rxWs0, rxLit "illness"]),
       pr (rxCat [rxLit "pre", rxDashWsOpt, rxLit "existing", rxWs0, rxLit "medical"])]
  | ClauseT.deductible =>
      [pl "deductible", pl "excess",
       pr (rxCat [rxLit "co", rxDashWsOpt, rxLit "pay"]),
       pw ["out", "of", "pocket"], pw ["self", "retention"], pl "franchise",
       pr (rxCat [rxLit "co", rxDashWsOpt, rxLit "payment"]), pl "copayment",
       pw ["deductible", "amount"], pw ["excess", "amount"],
       pr (rxCat [rxLit "co", rxDashWsOpt, rxLit "pay", rxWs0, rxLit "amount"]),
       pw ["patient", "contribution"], pw ["member", "contribution"],
       pw ["cost", "sharing"]]
  | ClauseT.air_ambulance =>
      [pw ["air", "ambulance"], pw ["helicopter", "ambulance"],
       pw ["medical", "helicopter"], pw ["aviation", "ambulance"],
       pw ["air", "medical", "transport"], pw ["emergency", "aviation"],
       pw ["medical", "aviation"], pw ["flight", "ambulance"],
       pw ["aerial", "ambulance"], pw ["medical", "flight"],
       pw ["emergency", "helicopter"], pw ["air", "medical", "service"],
       pw ["helicopter", "medical", "service"], pw ["aeromedical", "transport"],
       pw ["medical", "evacuation"], pw ["air", "evacuation"],
       pw ["emergency", "air", "transport"]]
  | ClauseT.distance_travel =>
      [pl "distance", pw ["travel", "distance"], pl "kilometer", pl "kilometre",
       pl "km", pwx [rxDig1, rxLit "km"], pwx [rxDig1, rxLit "kilometer"],
       pw ["maximum", "distance"], pw ["travel", "limit"],
       pw ["distance", "limit"], pw ["coverage", "distance"],
       pw ["service", "range"], pw ["operational", "range"],
       pw ["travel", "range"], pwx [rxLit "150", rxLit "km"],
       pw ["one", "hundred", "fifty"]]
  | ClauseT.well_mother =>
      [pw ["well", "mother"], pw ["mother", "wellness"],
       pw ["maternal", "wellness"], pw ["expectant", "mother", "care"],
       pw ["pregnancy", "wellness"], pw ["maternal", "health"],
       pw ["mother", "care"], pw ["maternal", "care"],
       pw ["well", "mother", "cover"], pw ["well", "mother", "benefits"],
       pw ["mother", "wellness", "program"]]
  | ClauseT.well_baby =>
      [pw ["well", "baby"], pw ["baby", "wellness"], pw ["infant", "wellness"],
       pw ["newborn", "care"], pw ["baby", "care"], pw ["infant", "care"],
       pw ["neonatal", "care"], pw ["baby", "health"], pw ["infant", "health"],
       pw ["newborn", "wellness"], pw ["well", "baby", "expenses"],
       pw ["healthy", "baby"], pw ["baby", "medical", "care"],
       pw ["infant", "medical", "care"]]
  | ClauseT.routine_care =>
      [pw ["routine", "medical", "care"], pw ["routine", "care"],
       pw ["preventive", "care"], pw ["wellness", "care"],
       pw ["health", "maintenance"], pw ["regular", "checkup"],
       pw ["routine", "checkup"], pw ["standard", "care"],
       pw ["basic", "medical", "care"], pw ["health", "screening"],
       pw ["wellness", "services"], pw ["preventive", "medicine"]]
  | ClauseT.regulatory =>
      [pl "UIN", pw ["unique", "identification", "number"],
       pw ["product", "identification"], pw ["regulatory", "number"],
       pw ["approval", "number"], pw ["license", "number"],
       pw ["registration", "number"], pw ["product", "code"],
       pw ["policy", "code"], pw ["base", "product"],
       pr (rxCat [rxLit "add", rxDashWsOpt, rxLit "on"]), pl "rider",
       pl "endorsement", pw ["competent", "authority"],
       pw ["government", "authority"], pw ["regulatory", "authority"]]
  | ClauseT.licensing =>
      [pl "licensed", pl "certified", pl "authorized", pl "approved",
       pl "accredited", pl "registered", pl "qualified", pl "permitted",
       pw ["duly", "licensed"], pw ["competent", "government", "authority"],
       pw ["licensing", "authority"], pw ["regulatory", "body"],
       pw ["certification", "authority"], pw ["official", "authority"]]
  | ClauseT.table_benefits =>
      [pw ["table", "of", "benefits"], pw ["benefit", "table"],
       pw ["coverage", "table"], pw ["benefit", "schedule"],
       pw ["coverage", "schedule"], pw ["policy", "schedule"],
       pw ["benefits", "chart"], pw ["coverage", "chart"],
       pw ["benefit", "summary"], pw ["coverage", "summary"],
       pw ["schedule", "of", "benefits"]]
  | ClauseT.multiple_birth =>
      [pw ["multiple", "birth"], pw ["multiple", "babies"], pl "twins",
       pl "triplets", pl "quadruplets", pw ["multiple", "children"],
       pw ["multiple", "newborn"], pw ["twin", "birth"],
       pw ["multiple", "deliveries"], pw ["simultaneous", "birth"]]
  | ClauseT.proportionate_payment =>
      [pl "proportionate", pl "proportional",
       pr (rxCat [rxLit "pro", rxDashWsOpt, rxLit "rata"]),
       pw ["partial", "payment"], pw ["reduced", "payment"],
       pw ["scaled", "payment"], pw ["adjusted", "payment"],
       pw ["calculated", "payment"], pw ["percentage", "payment"],
       pr (rxCat [rxLit "ratio", rxDashWsOpt, rxLit "based"])]
  | ClauseT.period_options =>
      [pw ["period", "option"], pw ["coverage", "period"],
       pw ["policy", "period"], pw ["benefit", "period"],
       pw ["three", "period"], pw ["multiple", "period"],
       pw ["period", "choice"], pw ["coverage", "option"],
       pw ["benefit", "option"]]
  | ClauseT.medical_examination =>
      [pw ["medical", "examination"], pw ["health", "checkup"],
       pw ["medical", "checkup"], pw ["customary", "examination"],
       pw ["routine", "examination"], pw ["health", "assessment"],
       pw ["medical", "assessment"], pw ["clinical", "examination"],
       pw ["physical", "examination"], pw ["diagnostic", "examination"],
       pw ["screening", "examination"]]
  | ClauseT.sum_insured_limits =>
      [pw ["sum", "insured"], pw ["insured", "amount"],
       pw ["coverage", "amount"], pw ["policy", "limit"],
       pw ["maximum", "coverage"], pw ["benefit", "limit"],
       pw ["coverage", "limit"], pw ["insurance", "limit"],
       pw ["maximum", "benefit"], pw ["benefit", "amount"],
       pw ["room", "rent", "limit"], pwx [rxLit "ICU", rxLit "limit"],
       pr (rxCat [rxLit "sub", rxDashWsOpt, rxLit "limit"]),
       pwx [rxLit "1%", rxLit "of", rxLit "SI"],
       pwx [rxLit "2%", rxLit "of", rxLit "SI"],
       pw ["percentage", "of", "sum", "insured"]]
  | ClauseT.plan_types =>
      [pwx [rxLit "plan", rxLit "A"], pwx [rxLit "plan", rxLit "B"],
       pwx [rxLit "plan", rxLit "C"], pw ["basic", "plan"],
       pw ["standard", "plan"], pw ["premium", "plan"],
       pwx [rxLit "option", rxLit "A"], pwx [rxLit "option", rxLit "B"],
       pwx [rxLit "package", rxLit "A"], pwx [rxLit "package", rxLit "B"],
       pwx [rxLit "scheme", rxLit "A"], pwx [rxLit "scheme", rxLit "B"],
       pwx [rxLit "variant", rxLit "A"]]
  | ClauseT.ayush_treatment =>
      [pl "AYUSH", pl "ayurveda", pl "yoga", pl "naturopathy", pl "unani",
       pl "siddha", pl "homeopathy", pw ["alternative", "medicine"],
       pw ["traditional", "medicine"], pw ["ayurvedic", "treatment"],
       pw ["homeopathic", "treatment"], pw ["natural", "medicine"],
       pwx [rxLit "AYUSH", rxLit "hospital"],
       pwx [rxLit "AYUSH", rxLit "treatment"], pw ["ayurvedic", "hospital"]]
  | ClauseT.hospital_definition =>
      [pl "hospital", pw ["medical", "institution"],
       pw ["healthcare", "facility"], pw ["nursing", "home"],
       pw ["medical", "center"], pl "clinic", pw ["healthcare", "center"],
       pwx [rxDig1, rxLit "bed"], pw ["minimum", "bed"],
       pw ["inpatient", "bed"], pw ["qualified", "nursing"],
       pw ["operation", "theatre"], pw ["medical", "practitioner"],
       pwx [rxLit "24", rxOptS "hour"], pw ["round", "the", "clock"],
       pw ["full", "time"]]
  | ClauseT.general => []

/-- Dict insertion order of `clause_patterns`. -/
def clause_order : List ClauseT :=
  [ClauseT.waiting_period, ClauseT.grace_period, ClauseT.coverage,
   ClauseT.exclusion, ClauseT.premium, ClauseT.maternity, ClauseT.pre_existing,
   ClauseT.deductible, ClauseT.air_ambulance, ClauseT.distance_travel,
   ClauseT.well_mother, ClauseT.well_baby, ClauseT.routine_care,
   ClauseT.regulatory, ClauseT.licensing, ClauseT.table_benefits,
   ClauseT.multiple_birth, ClauseT.proportionate_payment,
   ClauseT.period_options, ClauseT.medical_examination,
   ClauseT.sum_insured_limits, ClauseT.plan_types, ClauseT.ayush_treatment,
   ClauseT.hospital_definition]

/-- `clause_weights` (`clause_matcher.py:276`); `dict.get(type, 1.0)`. -/
def clause_weight (t : ClauseT) : ℚ :=
  match t with
  | ClauseT.air_ambulance => 15/10
  | ClauseT.well_mother => 14/10
  | ClauseT.well_baby => 14/10
  | ClauseT.regulatory => 13/10
  | ClauseT.distance_travel => 13/10
  | ClauseT.proportionate_payment => 12/10
  | ClauseT.waiting_period => 11/10
  | ClauseT.grace_period => 11/10
  | ClauseT.maternity => 11/10
  | ClauseT.pre_existing => 11/10
  | _ => 1

/-! ### Text normalisation (`app/utils/text_processing.py:43`) -/

/-- `string.punctuation` minus `.` and `,` (the set removed by
`normalize_text`); characters awkward to write literally are given by
code point. -/
def punctNoDotComma : List Char :=
  ['!', Char.ofNat 34, '#', '$', '%', '&', Char.ofNat 39, '(', ')', '*',
   '+', '-', '/', ':', ';', '<', '=', '>', '?', '@', '[', Char.ofNat 92,
   ']', '^', '_', Char.ofNat 96, Char.ofNat 123, '|', Char.ofNat 125, '~']

/-- `re.sub(r'\s+', ' ', s)`. -/
def collapseWs : Nat → Str → Str
  | 0, s => s
  | _ + 1, [] => []
  | fuel + 1, c :: rest =>
      if pyIsWs c then ' ' :: collapseWs fuel (rest.dropWhile pyIsWs)
      else c :: collapseWs fuel rest

/-- `normalize_text`: lower-case, drop punctuation except `.`/`,`,
collapse whitespace, strip. -/
def normalize_text (s : Str) : Str :=
  if s.isEmpty then []
  else
    pyStrip (collapseWs s.length
      ((pyLower s).filter (fun c => !(punctNoDotComma.contains c))))

/-! ### Keyword density (`ClauseMatcher._calculate_keyword_density`) -/

def stop_words : List Str :=
  (["the", "is", "are", "and", "or", "but", "in", "on", "at", "to",
    "for", "of", "with", "by", "from", "as", "an", "a", "this", "that",
    "these", "those", "be", "been", "being", "have", "has", "had",
    "do", "does", "did", "will", "would", "should", "could", "can"]).map
    String.toList

/-- Python `set(...)` as a first-occurrence dedup. -/
def dedupStr (l : List Str) : List Str :=
  l.foldl (fun acc w => if acc.contains w then acc else acc ++ [w]) []

/-- `set(normalize_text(query).split()) - stop_words`. -/
def kd_words (s : Str) : List Str :=
  (dedupStr (pySplit (normalize_text s))).filter
    (fun w => !(stop_words.contains w))

/-- `len(query_words ∩ text_words)`. -/
def kd_overlap (query text : Str) : Nat :=
  ((kd_words query).filter (fun w => (kd_words text).contains w)).length

/-- The 2-word phrases of the normalized query. -/
def kd_bigrams (qt : Str) : List Str :=
  ((pySplit qt).zip (pySplit qt).tail).map (fun p => p.1 ++ [' '] ++ p.2)

def kd_bigram_hits (qt tn : Str) : Nat :=
  ((kd_bigrams qt).filter (fun ph => listContains tn ph)).length

/-- Phrase boost: +0.3 on a verbatim normalized-query hit, else up to +0.2
from bigram hits (0.1 each). -/
def kd_phrase_boost (query text : Str) : ℚ :=
  if listContains (normalize_text text) (normalize_text query) then 3/10
  else if 1 < (pySplit (normalize_text query)).length then
    min (2/10) ((kd_bigram_hits (normalize_text query) (normalize_text text) : ℚ) * (1/10))
  else 0

def calculate_keyword_density (query text : Str) : ℚ :=
  if kd_words query = [] then 0
  else
    min 1 ((kd_overlap query text : ℚ) / ((kd_words query).length : ℚ)
      + kd_phrase_boost query text)

/-! ### Context relevance, regulatory score, length boost, insurance boost -/

/-- `context_indicators` (`clause_matcher.py:532`); `dict.get(t, [])`. -/
def context_indicators (t : ClauseT) : List String :=
  match t with
  | ClauseT.air_ambulance => ["hospital", "emergency", "medical", "transport", "evacuation"]
  | ClauseT.well_mother => ["pregnancy", "maternal", "delivery", "prenatal", "postnatal"]
  | ClauseT.well_baby => ["newborn", "infant", "baby", "neonatal", "pediatric"]
  | ClauseT.regulatory => ["authority", "government", "approval", "license", "compliance"]
  | ClauseT.waiting_period => ["months", "years", "continuous", "inception", "commencement"]
  | ClauseT.grace_period => ["payment", "premium", "renewal", "due", "extension"]
  | ClauseT.maternity => ["pregnancy", "delivery", "childbirth", "obstetric", "labor"]
  | _ => []

def cr_count (t : ClauseT) (tl : Str) : Nat :=
  ((context_indicators t).filter (fun ind => listContains tl ind.toList)).length

def calculate_context_relevance (text : Str) (cts : List ClauseT) : ℚ :=
  min 1 ((cts.map (fun t =>
    if 0 < cr_count t (pyLower text) then
      min (3/10) ((cr_count t (pyLower text) : ℚ) * (1/10) * clause_weight t)
    else 0)).sum)

/-- `regulatory_patterns` (`clause_matcher.py:559`), matched against
`text.upper()`; the lower-case word patterns can never fire there,
exactly as in the code. -/
def regulatory_patterns : List Pat :=
  [{ rx := rxCat [Rx.cls Cls.upperAZ, Rx.cls Cls.upperAZ,
       Rx.star (Rx.cls Cls.upperAZ), Rx.cls Cls.digit, Rx.cls Cls.digit,
       Rx.star (Rx.cls Cls.digit), Rx.star (Rx.cls Cls.upperAZ09)],
     lb := true, rb := true },
   { rx := rxLit "UIN", lb := true, rb := true },
   { rx := rxLit "authority", lb := true, rb := true },
   { rx := Rx.cat (rxLit "licens") rxWordStar, lb := true, rb := true },
   { rx := rxLit "approval", lb := true, rb := true },
   { rx := rxLit "registration", lb := true, rb := true },
   { rx := rxLit "compliance", lb := true, rb := true },
   { rx := rxLit "regulatory", lb := true, rb := true },
   { rx := rxLit "government", lb := true, rb := true },
   { rx := rxLit "official", lb := true, rb := true }]

def calculate_regulatory_score (text : Str) : ℚ :=
  min 1 ((regulatory_patterns.map (fun p =>
    if 0 < findallCount p (pyUpper text) then
      (findallCount p (pyUpper text) : ℚ) * (1/10)
    else 0)).sum)

def word_count (text : Str) : Nat := (pySplit text).length

/-- `_calculate_length_boost` (`clause_matcher.py:573`): note the −0.1
penalty for very short text.  (The `sentence_count` computed by the
source is unused and omitted.) -/
def calculate_length_boost (text : Str) : ℚ :=
  if word_count text < 15 then -(1/10)
  else if word_count text ≤ 30 then 0
  else if word_count text ≤ 100 then 1/10
  else if word_count text ≤ 200 then 3/20
  else 1/10

def high_value_terms : List String :=
  ["sum insured", "policy limit", "coverage amount", "benefit limit",
   "waiting period", "grace period", "pre-existing", "maternity",
   "air ambulance", "well mother", "well baby", "proportionate",
   "licensed authority", "competent authority", "table of benefits"]

def medium_value_terms : List String :=
  ["premium", "deductible", "co-pay", "exclusion", "coverage",
   "benefit", "treatment", "hospitalization", "medical expenses",
   "reimbursement", "indemnity", "compensation"]

def ib_high (tl : Str) : Nat :=
  (high_value_terms.filter (fun term => listContains tl term.toList)).length

def ib_med (tl : Str) : Nat :=
  (medium_value_terms.filter (fun term => listContains tl term.toList)).length

/-- `_calculate_insurance_boost` (the `clause_types` argument is accepted
and ignored, as in the source). -/
def calculate_insurance_boost (text : Str) (_cts : List ClauseT) : ℚ :=
  min (3/10) ((ib_high (pyLower text) : ℚ) * (5/100)
    + (ib_med (pyLower text) : ℚ) * (2/100))

/-! ### Pattern analysis and clause-type identification -/

def clause_type_count (t : ClauseT) (tl : Str) : Nat :=
  ((clause_patterns t).map (fun p => findallCount p tl)).sum

/-- `_analyze_pattern_matches`: boost part.  Per matched type,
`min(0.3, count·0.1·weight)`; total clamped to 0.5.  The `general` type is
skipped. -/
def analyze_pattern_boost (text : Str) (cts : List ClauseT) : ℚ :=
  min (1/2) ((cts.map (fun t =>
    if t = ClauseT.general then 0
    else if 0 < clause_type_count t (pyLower text) then
      min (3/10) ((clause_type_count t (pyLower text) : ℚ) * (1/10) * clause_weight t)
    else 0)).sum)

/-- `_analyze_pattern_matches`: the total number of pattern matches
collected (its deduplicated list is non-empty iff this count is
positive). -/
def analyze_pattern_count (text : Str) (cts : List ClauseT) : Nat :=
  (cts.map (fun t =>
    if t = ClauseT.general then 0 else clause_type_count t (pyLower text))).sum

/-- `_identify_clause_types_comprehensive`: weighted scores over all
families, sort descending (stable), keep the top 3 type names; `general`
when nothing scored. -/
def identify_clause_types (query : Str) : List ClauseT :=
  match (((clause_order.filterMap (fun t =>
      if 0 < clause_type_count t (pyLower query) then
        some (t, (clause_type_count t (pyLower query) : ℚ) * clause_weight t)
      else none)).mergeSort
        (fun a b => decide (b.2 ≤ a.2))).map (fun z => z.1)).take 3 with
  | [] => [ClauseT.general]
  | l => l

/-! ### Enhanced confidence and `find_relevant_clauses` -/

structure ConfidenceData where
  confidence : ℚ
  primary_type : ClauseT
  pattern_match_count : Nat
  keyword_density : ℚ
  context_relevance : ℚ
  regulatory_score : ℚ
  deriving DecidableEq

def calculate_enhanced_confidence (query text : Str) (similarity : ℚ)
    (cts : List ClauseT) : ConfidenceData :=
  { confidence := min 1 (similarity * (4/10)
      + analyze_pattern_boost text cts * (25/100)
      + calculate_keyword_density query text * (15/100)
      + calculate_context_relevance text cts * (1/10)
      + calculate_length_boost text * (5/100)
      + calculate_insurance_boost text cts * (5/100)),
    primary_type := cts.headD ClauseT.general,
    pattern_match_count := analyze_pattern_count text cts,
    keyword_density := calculate_keyword_density query text,
    context_relevance := calculate_context_relevance text cts,
    regulatory_score := calculate_regulatory_score text }

structure ClauseMatch where
  text : Str
  similarity_score : ℚ
  document_id : String
  chunk_index : Nat
  clause_type : ClauseT
  confidence : ℚ
  pattern_match_count : Nat
  keyword_density : ℚ
  context_relevance : ℚ
  regulatory_score : ℚ
  deriving DecidableEq

/-- Descending lexicographic comparison on the sort key
`(confidence, similarity, keyword_density, regulatory_score)`. -/
def lex4le (a b : ℚ × ℚ × ℚ × ℚ) : Bool :=
  if a.1 < b.1 then true
  else if b.1 < a.1 then false
  else if a.2.1 < b.2.1 then true
  else if b.2.1 < a.2.1 then false
  else if a.2.2.1 < b.2.2.1 then true
  else if b.2.2.1 < a.2.2.1 then false
  else decide (a.2.2.2 ≤ b.2.2.2)

def match_key (m : ClauseMatch) : ℚ × ℚ × ℚ × ℚ :=
  (m.confidence, m.similarity_score, m.keyword_density, m.regulatory_score)

/-- `_apply_enhanced_filtering` (`clause_matcher.py:620`). -/
def apply_enhanced_filtering (ms : List ClauseMatch)
    (cts : List ClauseT) : List ClauseMatch :=
  if cts = [] ∨ cts = [ClauseT.general] then ms
  else
    if ((ms.filter (fun m =>
        decide (8/10 < m.similarity_score) || decide (7/10 < m.confidence)
          || (m.pattern_match_count != 0)
          || decide (1/2 < m.keyword_density)
          || decide (3/10 < m.regulatory_score))).length < 3
        ∧ 3 < ms.length) then
      ms.take 8
    else
      ms.filter (fun m =>
        decide (8/10 < m.similarity_score) || decide (7/10 < m.confidence)
          || (m.pattern_match_count != 0)
          || decide (1/2 < m.keyword_density)
          || decide (3/10 < m.regulatory_score))

/-- `find_relevant_clauses` (`clause_matcher.py:295`): the body of the
`try` block, which is total in this embedding. -/
def find_relevant_clauses (query : String) (document_chunks : List VChunk)
    (threshold : ℚ) (max_matches : Nat) : List ClauseMatch :=
  if document_chunks.isEmpty then []
  else
    (apply_enhanced_filtering
      ((document_chunks.filterMap (fun chunk =>
        if threshold ≤ chunk.score then
          some { text := chunk.text.toList,
                 similarity_score := chunk.score,
                 document_id := chunk.document_id,
                 chunk_index := chunk.chunk_index,
                 clause_type := (calculate_enhanced_confidence query.toList
                   chunk.text.toList chunk.score
                   (identify_clause_types query.toList)).primary_type,
                 confidence := (calculate_enhanced_confidence query.toList
                   chunk.text.toList chunk.score
                   (identify_clause_types query.toList)).confidence,
                 pattern_match_count := (calculate_enhanced_confidence
                   query.toList chunk.text.toList chunk.score
                   (identify_clause_types query.toList)).pattern_match_count,
                 keyword_density := (calculate_enhanced_confidence query.toList
                   chunk.text.toList chunk.score
                   (identify_clause_types query.toList)).keyword_density,
                 context_relevance := (calculate_enhanced_confidence
                   query.toList chunk.text.toList chunk.score
                   (identify_clause_types query.toList)).context_relevance,
                 regulatory_score := (calculate_enhanced_confidence
                   query.toList chunk.text.toList chunk.score
                   (identify_clause_types query.toList)).regulatory_score }
        else none)).mergeSort
          (fun a b => lex4le (match_key b) (match_key a)))
      (identify_clause_types query.toList)).take max_matches

/-- The `try/except` wrapper of `find_relevant_clauses`: any exception
raised during matching yields `[]`. -/
def find_relevant_clauses_guarded
    (outcome : Except String (List ClauseMatch)) : List ClauseMatch :=
  match outcome with
  | Except.ok r => r
  | Except.error _ => []

/-! ## C10 — `find_relevant_clauses` never aborts the question -/

/-- C10: an empty chunk list returns `[]` directly, and the `try/except`
wrapper turns any exception raised during matching into `[]` as well, so
clause matching never propagates a failure to the caller (who then
proceeds with vector scores alone). -/
theorem c10_find_relevant_clauses_total (query : String) (threshold : ℚ)
    (max_matches : Nat) (e : String) (r : List ClauseMatch) :
    find_relevant_clauses query [] threshold max_matches = [] ∧
    find_relevant_clauses_guarded (Except.error e) = [] ∧
    find_relevant_clauses_guarded (Except.ok r) = r :=
  ⟨rfl, rfl, rfl⟩

/-! ## C9 — stop-word robustness of the keyword density -/

/-- C9: `keyword_density("the is are and X", "X") = 1.0`: the stop words
are removed from the question's word set before the overlap ratio, so the
single surviving word `x` is fully matched. -/
theorem c9_keyword_density_stop_word_robust :
    calculate_keyword_density "the is are and X".toList "X".toList = 1 := by
  unfold calculate_keyword_density
  rw [if_neg (by decide :
    ¬ (kd_words "the is are and X".toList = []))]
  rw [show kd_overlap "the is are and X".toList "X".toList = 1 from by decide]
  rw [show (kd_words "the is are and X".toList).length = 1 from by decide]
  unfold kd_phrase_boost
  rw [if_neg (by decide : ¬ (listContains (normalize_text "X".toList)
    (normalize_text "the is are and X".toList) = true))]
  rw [if_pos (by decide :
    1 < (pySplit (normalize_text "the is are and X".toList)).length)]
  rw [show kd_bigram_hits (normalize_text "the is are and X".toList)
    (normalize_text "X".toList) = 0 from by decide]
  norm_num

/-! ## C6 — range bounds of the clause matcher's scores -/

lemma clause_weight_nonneg (t : ClauseT) : 0 ≤ clause_weight t := by
  cases t <;> norm_num [clause_weight]

lemma analyze_pattern_boost_bounds (text : Str) (cts : List ClauseT) :
    0 ≤ analyze_pattern_boost text cts ∧
    analyze_pattern_boost text cts ≤ 1/2 := by
  unfold analyze_pattern_boost
  constructor
  · apply le_min (by norm_num)
    apply List.sum_nonneg
    intro x hx
    rcases List.mem_map.mp hx with ⟨t, _, hxe⟩
    rw [← hxe]
    by_cases h1 : t = ClauseT.general
    · simp [h1]
    · rw [if_neg h1]
      by_cases h2 : 0 < clause_type_count t (pyLower text)
      · rw [if_pos h2]
        apply le_min (by norm_num)
        have := clause_weight_nonneg t
        positivity
      · rw [if_neg h2]
  · exact min_le_left _ _

lemma keyword_density_bounds (query text : Str) :
    0 ≤ calculate_keyword_density query text ∧
    calculate_keyword_density query text ≤ 1 := by
  unfold calculate_keyword_density
  by_cases h : kd_words query = []
  · simp [h]
  · rw [if_neg h]
    refine ⟨le_min (by norm_num) ?_, min_le_left _ _⟩
    have h1 : (0 : ℚ) ≤ (kd_overlap query text : ℚ) / ((kd_words query).length : ℚ) := by
      positivity
    have h2 : (0 : ℚ) ≤ kd_phrase_boost query text := by
      unfold kd_phrase_boost
      by_cases hc : listContains (normalize_text text) (normalize_text query)
      · rw [if_pos hc]; norm_num
      · rw [if_neg hc]
        by_cases hl : 1 < (pySplit (normalize_text query)).length
        · rw [if_pos hl]
          apply le_min (by norm_num)
          positivity
        · rw [if_neg hl]
    linarith

lemma context_relevance_bounds (text : Str) (cts : List ClauseT) :
    0 ≤ calculate_context_relevance text cts ∧
    calculate_context_relevance text cts ≤ 1 := by
  unfold calculate_context_relevance
  refine ⟨le_min (by norm_num) ?_, min_le_left _ _⟩
  apply List.sum_nonneg
  intro x hx
  rcases List.mem_map.mp hx with ⟨t, _, hxe⟩
  rw [← hxe]
  by_cases h2 : 0 < cr_count t (pyLower text)
  · rw [if_pos h2]
    apply le_min (by norm_num)
    have := clause_weight_nonneg t
    positivity
  · rw [if_neg h2]

lemma regulatory_score_bounds (text : Str) :
    0 ≤ calculate_regulatory_score text ∧
    calculate_regulatory_score text ≤ 1 := by
  unfold calculate_regulatory_score
  refine ⟨le_min (by norm_num) ?_, min_le_left _ _⟩
  apply List.sum_nonneg
  intro x hx
  rcases List.mem_map.mp hx with ⟨p, _, hxe⟩
  rw [← hxe]
  by_cases h2 : 0 < findallCount p (pyUpper text)
  · rw [if_pos h2]; positivity
  · rw [if_neg h2]

lemma insurance_boost_bounds (text : Str) (cts : List ClauseT) :
    0 ≤ calculate_insurance_boost text cts ∧
    calculate_insurance_boost text cts ≤ 3/10 := by
  unfold calculate_insurance_boost
  refine ⟨le_min (by norm_num) ?_, min_le_left _ _⟩
  positivity

lemma length_boost_range (text : Str) :
    -(1/10) ≤ calculate_length_boost text ∧
    calculate_length_boost text ≤ 3/20 := by
  unfold calculate_length_boost
  split_ifs <;> norm_num

/-- C6 (amended): for every question, chunk text, and similarity at least
`1/80` (all call sites filter at `similarity ≥ 0.3`), the clause matcher's
scores satisfy: `pattern_boost ∈ [0, 0.5]`, `keyword_density ∈ [0, 1]`,
`context_relevance ∈ [0, 1]`, `regulatory_score ∈ [0, 1]`,
`insurance_boost ∈ [0, 0.3]`, `confidence ∈ [0, 1]` — but `length_boost`
lies in `[−0.1, 0.15]`, **not** in `[0, 1]`: short chunks are scored with
the penalty −0.1. -/
theorem c6_clause_matcher_score_ranges (query text : String)
    (similarity : ℚ) (hsim : 1/80 ≤ similarity) :
    (0 ≤ analyze_pattern_boost text.toList (identify_clause_types query.toList)
      ∧ analyze_pattern_boost text.toList (identify_clause_types query.toList) ≤ 1/2) ∧
    (0 ≤ calculate_keyword_density query.toList text.toList
      ∧ calculate_keyword_density query.toList text.toList ≤ 1) ∧
    (0 ≤ calculate_context_relevance text.toList (identify_clause_types query.toList)
      ∧ calculate_context_relevance text.toList (identify_clause_types query.toList) ≤ 1) ∧
    (0 ≤ calculate_regulatory_score text.toList
      ∧ calculate_regulatory_score text.toList ≤ 1) ∧
    (0 ≤ calculate_insurance_boost text.toList (identify_clause_types query.toList)
      ∧ calculate_insurance_boost text.toList (identify_clause_types query.toList) ≤ 3/10) ∧
    (-(1/10) ≤ calculate_length_boost text.toList
      ∧ calculate_length_boost text.toList ≤ 3/20) ∧
    (0 ≤ (calculate_enhanced_confidence query.toList text.toList similarity
        (identify_clause_types query.toList)).confidence
      ∧ (calculate_enhanced_confidence query.toList text.toList similarity
        (identify_clause_types query.toList)).confidence ≤ 1) := by
  have hpb := analyze_pattern_boost_bounds text.toList (identify_clause_types query.toList)
  have hkd := keyword_density_bounds query.toList text.toList
  have hcr := context_relevance_bounds text.toList (identify_clause_types query.toList)
  have hrs := regulatory_score_bounds text.toList
  have hib := insurance_boost_bounds text.toList (identify_clause_types query.toList)
  have hlb := length_boost_range text.toList
  refine ⟨hpb, hkd, hcr, hrs, hib, hlb, ?_, min_le_left _ _⟩
  show (0 : ℚ) ≤ min 1 (similarity * (4/10)
      + analyze_pattern_boost text.toList (identify_clause_types query.toList) * (25/100)
      + calculate_keyword_density query.toList text.toList * (15/100)
      + calculate_context_relevance text.toList (identify_clause_types query.toList) * (1/10)
      + calculate_length_boost text.toList * (5/100)
      + calculate_insurance_boost text.toList (identify_clause_types query.toList) * (5/100))
  apply le_min (by norm_num)
  nlinarith [hpb.1, hkd.1, hcr.1, hib.1, hlb.1, hsim]

/-- Witness for `c6_clause_matcher_score_ranges` at the concrete input
`query = "x"`, `text = "y"`, `similarity = 1`. -/
theorem c6_clause_matcher_score_ranges_witness :
    ((1 : ℚ)/80 ≤ 1) ∧
    ((0 ≤ analyze_pattern_boost "y".toList (identify_clause_types "x".toList)
      ∧ analyze_pattern_boost "y".toList (identify_clause_types "x".toList) ≤ 1/2) ∧
    (0 ≤ calculate_keyword_density "x".toList "y".toList
      ∧ calculate_keyword_density "x".toList "y".toList ≤ 1) ∧
    (0 ≤ calculate_context_relevance "y".toList (identify_clause_types "x".toList)
      ∧ calculate_context_relevance "y".toList (identify_clause_types "x".toList) ≤ 1) ∧
    (0 ≤ calculate_regulatory_score "y".toList
      ∧ calculate_regulatory_score "y".toList ≤ 1) ∧
    (0 ≤ calculate_insurance_boost "y".toList (identify_clause_types "x".toList)
      ∧ calculate_insurance_boost "y".toList (identify_clause_types "x".toList) ≤ 3/10) ∧
    (-(1/10) ≤ calculate_length_boost "y".toList
      ∧ calculate_length_boost "y".toList ≤ 3/20) ∧
    (0 ≤ (calculate_enhanced_confidence "x".toList "y".toList 1
        (identify_clause_types "x".toList)).confidence
      ∧ (calculate_enhanced_confidence "x".toList "y".toList 1
        (identify_clause_types "x".toList)).confidence ≤ 1)) :=
  ⟨by norm_num, c6_clause_matcher_score_ranges "x" "y" 1 (by norm_num)⟩

/-- C6 (counterexample): a chunk text of fewer than 15 words gets
`length_boost = −0.1`, which is not in `[0, 1]` as the claim requires. -/
theorem c6_length_boost_can_be_negative :
    calculate_length_boost "too short".toList = -(1/10) ∧
    ¬ (0 ≤ calculate_length_boost "too short".toList) := by
  have hw : word_count "too short".toList = 2 := by decide
  have he : calculate_length_boost "too short".toList = -(1/10) := by
    unfold calculate_length_boost
    rw [hw]
    rw [if_pos (by decide : (2 : Nat) < 15)]
  exact ⟨he, by rw [he]; norm_num⟩

/-! ## C4 — multi-pass retrieval (`QueryProcessor._get_comprehensive_chunks`)

Source (`app/core/query_processor.py:941`).  The embedding-engine search
is an oracle `search : query → k → threshold → hits`; the loop nest over
the two passes and the variants merges each hit's boosted score into
`all_chunks` keyed by `chunk_id`, keeping the strictly larger score, then
returns the top 15 by score. -/

structure SHit where
  chunk_id : Nat
  score : ℚ
  deriving DecidableEq

/-- A merged record of `all_chunks`: the hit with its boosted score and
the `matched_query` / `search_pass` tags. -/
structure RetrObs where
  chunk_id : Nat
  score : ℚ
  matched_query : String
  search_pass : Nat
  deriving DecidableEq

/-- The two passes `(threshold, k, boost)`: broad then focused. -/
def search_passes : List (ℚ × Nat × ℚ) :=
  [(3/10, 6, 1), (2/5, 4, 4/5)]

/-- One merge step of the `all_chunks` dict: insert, or overwrite when the
new boosted score is strictly larger.  (`Nat` subtraction in
`max 3 (k − i/3)` agrees with Python's `max(3, k − i//3)` because both
clamp at 3 ≥ 0.) -/
def retrStep (m : List (Nat × RetrObs)) (o : RetrObs) : List (Nat × RetrObs) :=
  match m.find? (fun p => p.1 = o.chunk_id) with
  | none => m ++ [(o.chunk_id, o)]
  | some p =>
      if p.2.score < o.score then
        m.map (fun q => if q.1 = o.chunk_id then (o.chunk_id, o) else q)
      else m

/-- The record built from one raw hit of pass `pidx` / variant `i`:
effective score `raw × boost × (1 − 0.02·i)`, tagged with the matched
variant and the pass. -/
def mkObs (pidx : Nat) (params : ℚ × Nat × ℚ) (i : Nat) (q : String)
    (h : SHit) : RetrObs :=
  { chunk_id := h.chunk_id,
    score := h.score * (params.2.2 * (1 - (i : ℚ) * (2/100))),
    matched_query := q,
    search_pass := pidx }

/-- The sequence of hit observations produced by the loop nest, with the
per-variant parameter adjustments `k' = max(3, k − i/3)` and
`threshold' = min(base + 0.02·i, 0.70)` — stated in the claim's shape. -/
def retrieval_observations (search : String → Nat → ℚ → List SHit)
    (variations : List String) : List RetrObs :=
  (search_passes.enum).flatMap (fun pp =>
    (variations.enum).flatMap (fun iv =>
      (search iv.2 (max 3 (pp.2.2.1 - iv.1 / 3))
        (min (pp.2.1 + (iv.1 : ℚ) * (2/100)) (7/10))).map
          (mkObs pp.1 pp.2 iv.1 iv.2)))

/-- The `all_chunks` dict after the loop nest, exactly as the source
iterates it. -/
def get_comprehensive_chunks_state (search : String → Nat → ℚ → List SHit)
    (variations : List String) : List (Nat × RetrObs) :=
  (search_passes.enum).foldl (fun acc pp =>
    (variations.enum).foldl (fun acc2 iv =>
      (search iv.2 (max 3 (pp.2.2.1 - iv.1 / 3))
        (min (pp.2.1 + (iv.1 : ℚ) * (2/100)) (7/10))).foldl
          (fun acc3 h => retrStep acc3 (mkObs pp.1 pp.2 iv.1 iv.2 h)) acc2)
      acc) []

/-- `sorted(all_chunks.values(), key=score, reverse=True)[:15]`. -/
def get_comprehensive_chunks (search : String → Nat → ℚ → List SHit)
    (variations : List String) : List RetrObs :=
  (((get_comprehensive_chunks_state search variations).map
      (fun p => p.2)).mergeSort
    (fun a b => decide (b.score ≤ a.score))).take 15

/-- The merged score per `chunk_id`. -/
def retrScoreOf (m : List (Nat × RetrObs)) (id : Nat) : WithBot ℚ :=
  match m.find? (fun p => p.1 = id) with
  | none => ⊥
  | some p => (p.2.score : WithBot ℚ)

/-- Spec-side: the maximum effective score among all observations of a
`chunk_id`. -/
def obsMaxScore (l : List RetrObs) (id : Nat) : WithBot ℚ :=
  ((l.filter (fun o => o.chunk_id = id)).map
    (fun o => (o.score : WithBot ℚ))).foldr max ⊥

/-! ### Dict lemmas for the retrieval merge -/

lemma findkey_append_self {β : Type} (l : List (Nat × β)) (k : Nat) (v : β)
    (h : l.find? (fun p => p.1 = k) = none) :
    ((l ++ [(k, v)]).find? (fun p => p.1 = k)) = some (k, v) := by
  rw [List.find?_append, h]
  simp [List.find?]

lemma findkey_append_ne {β : Type} (l : List (Nat × β)) (k id : Nat) (v : β)
    (hne : id ≠ k) :
    ((l ++ [(k, v)]).find? (fun p => p.1 = id))
      = l.find? (fun p => p.1 = id) := by
  rw [List.find?_append]
  cases hf : l.find? (fun p => p.1 = id) with
  | some p => rfl
  | none =>
    simp only [List.find?]
    rw [decide_eq_false (fun h : k = id => hne h.symm)]
    rfl

lemma findkey_map_update_self {β : Type} (k : Nat) (v : β) :
    ∀ (l : List (Nat × β)), (∃ q, l.find? (fun p => p.1 = k) = some q) →
      ((l.map (fun q => if q.1 = k then (k, v) else q)).find?
        (fun p => p.1 = k)) = some (k, v)
  | [], h => by
    rcases h with ⟨q, hq⟩
    cases hq
  | p :: rest, h => by
    by_cases hp : p.1 = k
    · simp only [List.map_cons, if_pos hp]
      rw [List.find?_cons_of_pos _ (by simp)]
    · simp only [List.map_cons, if_neg hp]
      rw [List.find?_cons_of_neg _ (by simpa using hp),
        findkey_map_update_self k v rest ?_]
      rcases h with ⟨q, hq⟩
      rw [List.find?_cons_of_neg _ (by simpa using hp)] at hq
      exact ⟨q, hq⟩

lemma findkey_map_update_ne {β : Type} (k id : Nat) (v : β) (hne : id ≠ k) :
    ∀ (l : List (Nat × β)),
      ((l.map (fun q => if q.1 = k then (k, v) else q)).find?
        (fun p => p.1 = id)) = l.find? (fun p => p.1 = id)
  | [] => rfl
  | p :: rest => by
    by_cases hp : p.1 = k
    · simp only [List.map_cons, if_pos hp]
      rw [List.find?_cons_of_neg _ (by simpa using fun h => hne (h.symm)),
        List.find?_cons_of_neg _ (by rw [hp]; simpa using fun h => hne (h.symm)),
        findkey_map_update_ne k id v hne rest]
    · simp only [List.map_cons, if_neg hp]
      by_cases hp' : p.1 = id
      · rw [List.find?_cons_of_pos _ (by simpa using hp'),
          List.find?_cons_of_pos _ (by simpa using hp')]
      · rw [List.find?_cons_of_neg _ (by simpa using hp'),
          List.find?_cons_of_neg _ (by simpa using hp'),
          findkey_map_update_ne k id v hne rest]

lemma retrScoreOf_step_self (m : List (Nat × RetrObs)) (o : RetrObs) :
    retrScoreOf (retrStep m o) o.chunk_id
      = max (retrScoreOf m o.chunk_id) (o.score : WithBot ℚ) := by
  cases hf : m.find? (fun p => p.1 = o.chunk_id) with
  | none =>
    have hstep : retrStep m o = m ++ [(o.chunk_id, o)] := by
      unfold retrStep; rw [hf]
    have h1 : retrScoreOf (retrStep m o) o.chunk_id = (o.score : WithBot ℚ) := by
      unfold retrScoreOf
      rw [hstep, findkey_append_self m o.chunk_id o hf]
    have h2 : retrScoreOf m o.chunk_id = ⊥ := by
      unfold retrScoreOf; rw [hf]
    rw [h1, h2]
    exact (max_eq_right bot_le).symm
  | some p =>
    have h2 : retrScoreOf m o.chunk_id = (p.2.score : WithBot ℚ) := by
      unfold retrScoreOf; rw [hf]
    by_cases hlt : p.2.score < o.score
    · have hstep : retrStep m o
          = m.map (fun q => if q.1 = o.chunk_id then (o.chunk_id, o) else q) := by
        unfold retrStep
        simp only [hf]
        rw [if_pos hlt]
      have h1 : retrScoreOf (retrStep m o) o.chunk_id = (o.score : WithBot ℚ) := by
        unfold retrScoreOf
        rw [hstep, findkey_map_update_self o.chunk_id o m ⟨p, hf⟩]
      rw [h1, h2]
      have hle : (p.2.score : WithBot ℚ) ≤ (o.score : WithBot ℚ) := by
        exact_mod_cast le_of_lt hlt
      exact (max_eq_right hle).symm
    · have hstep : retrStep m o = m := by
        unfold retrStep
        simp only [hf]
        rw [if_neg hlt]
      rw [hstep, h2]
      have hle : (o.score : WithBot ℚ) ≤ (p.2.score : WithBot ℚ) := by
        exact_mod_cast le_of_not_lt hlt
      exact (max_eq_left hle).symm

lemma retrScoreOf_step_ne (m : List (Nat × RetrObs)) (o : RetrObs) (id : Nat)
    (hne : id ≠ o.chunk_id) :
    retrScoreOf (retrStep m o) id = retrScoreOf m id := by
  cases hf : m.find? (fun p => p.1 = o.chunk_id) with
  | none =>
    have hstep : retrStep m o = m ++ [(o.chunk_id, o)] := by
      unfold retrStep; rw [hf]
    unfold retrScoreOf
    rw [hstep, findkey_append_ne m o.chunk_id id o hne]
  | some p =>
    by_cases hlt : p.2.score < o.score
    · have hstep : retrStep m o
          = m.map (fun q => if q.1 = o.chunk_id then (o.chunk_id, o) else q) := by
        unfold retrStep
        simp only [hf]
        rw [if_pos hlt]
      unfold retrScoreOf
      rw [hstep, findkey_map_update_ne o.chunk_id id o hne m]
    · have hstep : retrStep m o = m := by
        unfold retrStep
        simp only [hf]
        rw [if_neg hlt]
      rw [hstep]

/-- The fold of merge steps computes, per `chunk_id`, exactly the maximum
of the prior score and all observed effective scores. -/
lemma retrScoreOf_foldl :
    ∀ (l : List RetrObs) (m : List (Nat × RetrObs)) (id : Nat),
      retrScoreOf (l.foldl retrStep m) id
        = max (retrScoreOf m id) (obsMaxScore l id)
  | [], m, id => by
    simp [obsMaxScore, List.foldl_nil]
  | o :: rest, m, id => by
    rw [List.foldl_cons, retrScoreOf_foldl rest (retrStep m o) id]
    by_cases hid : o.chunk_id = id
    · have h1 : retrScoreOf (retrStep m o) id
          = max (retrScoreOf m id) (o.score : WithBot ℚ) := by
        rw [← hid]; exact retrScoreOf_step_self m o
      have h2 : obsMaxScore (o :: rest) id
          = max (o.score : WithBot ℚ) (obsMaxScore rest id) := by
        unfold obsMaxScore
        rw [List.filter_cons_of_pos (by simpa using hid)]
        rfl
      rw [h1, h2, max_assoc]
    · have h1 : retrScoreOf (retrStep m o) id = retrScoreOf m id :=
        retrScoreOf_step_ne m o id (fun h => hid h.symm)
      have h2 : obsMaxScore (o :: rest) id = obsMaxScore rest id := by
        unfold obsMaxScore
        rw [List.filter_cons_of_neg (by simpa using hid)]
      rw [h1, h2]

/-- Folding over a `bind` is the nested fold. -/
lemma foldl_bind' {α β γ : Type} (f : α → List β) (g : γ → β → γ) :
    ∀ (l : List α) (init : γ),
      (l.flatMap f).foldl g init = l.foldl (fun acc a => (f a).foldl g acc) init
  | [], _ => rfl
  | a :: rest, init => by
    rw [List.flatMap_cons, List.foldl_append, List.foldl_cons]
    exact foldl_bind' f g rest _

lemma obsMaxScore_perm (l l' : List RetrObs) (hp : l.Perm l') (id : Nat) :
    obsMaxScore l id = obsMaxScore l' id := by
  unfold obsMaxScore
  exact List.Perm.foldr_eq' ((hp.filter _).map _)
    (fun x _ y _ z => by rw [max_left_comm]) ⊥

/-- C4: the multi-pass retriever (i) iterates exactly the two passes
`(0.30, 6, 1.00)` and `(0.40, 4, 0.80)` with per-variant parameters
`k' = max(3, k − i/3)`, `threshold' = min(base + 0.02·i, 0.70)` and
effective score `raw × boost × (1 − 0.02·i)` — its loop state is the fold
of `retrieval_observations` —, (ii) keeps per `chunk_id` the maximum
effective score over all observations, (iii) that per-chunk score is
invariant under any permutation of the observation order, and
(iv) at most the top 15 chunks by score are returned: every returned
record comes from the merged state and outscores every merged record that
was not returned. -/
theorem c4_multipass_retrieval (search : String → Nat → ℚ → List SHit)
    (variations : List String) :
    (get_comprehensive_chunks_state search variations
      = (retrieval_observations search variations).foldl retrStep []) ∧
    (∀ id, retrScoreOf (get_comprehensive_chunks_state search variations) id
      = obsMaxScore (retrieval_observations search variations) id) ∧
    (∀ (l l' : List RetrObs), l.Perm l' → ∀ id,
      retrScoreOf (l.foldl retrStep []) id
        = retrScoreOf (l'.foldl retrStep []) id) ∧
    ((get_comprehensive_chunks search variations).length ≤ 15) ∧
    (∀ x ∈ get_comprehensive_chunks search variations,
      x ∈ (get_comprehensive_chunks_state search variations).map
        (fun p => p.2)) ∧
    (∀ y ∈ (get_comprehensive_chunks_state search variations).map
        (fun p => p.2),
      y ∉ get_comprehensive_chunks search variations →
      ∀ x ∈ get_comprehensive_chunks search variations,
        y.score ≤ x.score) := by
  have hA : get_comprehensive_chunks_state search variations
      = (retrieval_observations search variations).foldl retrStep [] := by
    unfold get_comprehensive_chunks_state retrieval_observations
    rw [foldl_bind']
    congr 1
    funext acc pp
    rw [foldl_bind']
    congr 1
    funext acc2 iv
    rw [List.foldl_map]
  have hfold0 : ∀ (l : List RetrObs) (id : Nat),
      retrScoreOf (l.foldl retrStep []) id = obsMaxScore l id := by
    intro l id
    rw [retrScoreOf_foldl l [] id]
    have h0 : retrScoreOf [] id = ⊥ := rfl
    rw [h0]
    exact max_eq_right bot_le
  have hle_trans : ∀ (a b c : RetrObs),
      (decide (b.score ≤ a.score)) = true →
      (decide (c.score ≤ b.score)) = true →
      (decide (c.score ≤ a.score)) = true := by
    intro a b c h1 h2
    simp only [decide_eq_true_eq] at h1 h2 ⊢
    exact le_trans h2 h1
  have hle_total : ∀ (a b : RetrObs),
      ((decide (b.score ≤ a.score)) || (decide (a.score ≤ b.score))) = true := by
    intro a b
    rcases le_total b.score a.score with h | h
    · simp [h]
    · simp [h]
  refine ⟨hA, ?_, ?_, ?_, ?_, ?_⟩
  · intro id
    rw [hA]
    exact hfold0 _ id
  · intro l l' hp id
    rw [hfold0 l id, hfold0 l' id]
    exact obsMaxScore_perm l l' hp id
  · exact List.length_take_le _ _
  · intro x hx
    unfold get_comprehensive_chunks at hx
    exact List.mem_mergeSort.mp (List.mem_of_mem_take hx)
  · intro y hy hyn x hx
    unfold get_comprehensive_chunks at hyn hx
    have hsorted : (((get_comprehensive_chunks_state search variations).map
        (fun p => p.2)).mergeSort
          (fun a b => decide (b.score ≤ a.score))).Pairwise
        (fun a b => (decide (b.score ≤ a.score)) = true) := by
      exact List.sorted_mergeSort hle_trans hle_total _
    have hymem : y ∈ ((get_comprehensive_chunks_state search variations).map
        (fun p => p.2)).mergeSort (fun a b => decide (b.score ≤ a.score)) :=
      List.mem_mergeSort.mpr hy
    have hsplit := List.take_append_drop 15
      (((get_comprehensive_chunks_state search variations).map
        (fun p => p.2)).mergeSort (fun a b => decide (b.score ≤ a.score)))
    have hydrop : y ∈ (((get_comprehensive_chunks_state search
        variations).map (fun p => p.2)).mergeSort
          (fun a b => decide (b.score ≤ a.score))).drop 15 := by
      rw [← hsplit] at hymem
      rcases List.mem_append.mp hymem with h1 | h1
      · exact absurd h1 hyn
      · exact h1
    have hpair := List.pairwise_append.mp (by rw [hsplit]; exact hsorted)
    have := hpair.2.2 x hx y hydrop
    simpa using this

/-- Concrete oracle and observations for the C4 witness. -/
def c4search : String → Nat → ℚ → List SHit := fun _ _ _ => []

def c4o1 : RetrObs :=
  { chunk_id := 0, score := 1, matched_query := "a", search_pass := 0 }

def c4o2 : RetrObs :=
  { chunk_id := 0, score := 2, matched_query := "b", search_pass := 1 }

/-- Witness for `c4_multipass_retrieval`: the permutation-invariance part
instantiated on two concrete observations of the same chunk in either
order. -/
theorem c4_multipass_retrieval_witness :
    ([c4o2, c4o1].Perm [c4o1, c4o2]) ∧
    (retrScoreOf ([c4o2, c4o1].foldl retrStep []) 0
      = retrScoreOf ([c4o1, c4o2].foldl retrStep []) 0) :=
  ⟨List.Perm.swap c4o1 c4o2 [],
   (c4_multipass_retrieval c4search []).2.2.1 [c4o2, c4o1] [c4o1, c4o2]
     (List.Perm.swap c4o1 c4o2 []) 0⟩

/-! ## C5 — query expansion (`QueryProcessor._preprocess_query`)

Source (`app/core/query_processor.py:585`): build a pool of variations
(the stripped original, synonym/number/pattern/insurance/context/
technical/semantic expansions, in that order), deduplicate by the
stripped-and-lowered form while dropping variants of at most one
character or more than 20 words, sort by the enhanced priority score
(stable, descending) and return the first 20.  Strings stay `Str`
(`List Char`); `re.IGNORECASE` searches of the all-lowercase trigger
patterns are modelled as plain searches of the lowered text. -/

/-- The `comprehensive_synonyms` table (`query_processor.py:47`), in dict order. -/
def comprehensive_synonyms : List (String × List String) :=
  [
   ("grace period",
     ["payment grace period", "premium grace period", "grace time", "grace days", 
      "payment window", "premium payment grace", "renewal grace period", 
      "grace period for payment", "payment deadline extension", "grace allowance", 
      "payment extension", "premium extension", "renewal extension", "policy extension", 
      "late payment allowance", "payment tolerance period", "premium tolerance", 
      "continuity grace", "policy continuity period", "uninterrupted coverage grace"]),
   ("waiting period",
     ["wait period", "waiting time", "exclusion period", "cooling period", "waiting duration", 
      "wait time", "qualification period", "probation period", "elimination period", 
      "pre-coverage period", "initial waiting period", "coverage waiting", "benefit waiting", 
      "claim waiting", "treatment waiting", "medical waiting", "service waiting", 
      "care waiting", "therapy waiting", "procedure waiting", "surgery waiting", 
      "operation waiting", "hospitalization waiting"]),
   ("30 days",
     ["thirty days", "one month", "30-day period", "thirty day period", "1 month", 
      "thirty (30) days", "30 day", "thirty-day", "one (1) month", "monthly period"]),
   ("36 months",
     ["thirty six months", "three years", "3 years", "36-month period", "thirty-six months", 
      "thirty six (36) months", "3 year period", "three (3) years", "36 month period", 
      "3-year period", "three year period", "36-months", "thirty-six (36) months"]),
   ("24 months",
     ["twenty four months", "two years", "2 years", "24-month period", "twenty-four months", 
      "twenty four (24) months", "2 year period", "two (2) years", "24 month period", 
      "2-year period", "two year period", "24-months", "twenty-four (24) months"]),
   ("2 years",
     ["two years", "24 months", "twenty four months", "2-year period", "two (2) years", 
      "two year period", "24 month period", "twenty-four months", "2 year", "two-year"]),
   ("1 year",
     ["one year", "12 months", "twelve months", "annual period", "yearly", "1-year", 
      "one (1) year", "12 month period", "twelve (12) months", "annual", "per annum"]),
   ("3 months",
     ["three months", "90 days", "quarterly", "3-month period", "three (3) months", 
      "ninety days", "3 month period", "quarter period", "90-day period"]),
   ("6 months",
     ["six months", "180 days", "half year", "6-month period", "six (6) months", "semi-annual", 
      "6 month period", "half-yearly", "180-day period"]),
   ("4 years",
     ["four years", "48 months", "4-year period", "four (4) years", "48 month period", 
      "four year period", "48-month period", "forty-eight months"]),
   ("150 km",
     ["150 kilometers", "150 kilometres", "one hundred fifty km", "150-km", "150 kms", 
      "one hundred fifty kilometers", "150 kilometer", "150-kilometer"]),
   ("coverage",
     ["benefits", "protection", "indemnity", "compensation", "reimbursement", 
      "covered expenses", "eligible expenses", "payable benefits", "insured benefits", 
      "policy benefits", "insurance benefits", "medical benefits", "treatment benefits", 
      "care benefits", "health benefits", "hospitalization benefits", "surgical benefits", 
      "therapeutic benefits", "diagnostic benefits", "pharmaceutical benefits", 
      "medication benefits"]),
   ("maternity",
     ["pregnancy", "childbirth", "delivery", "maternity expenses", "pregnancy coverage", 
      "obstetric care", "prenatal care", "postnatal care", "labor and delivery", 
      "pregnancy benefits", "maternity benefits", "childbirth expenses", "delivery expenses", 
      "obstetric", "prenatal", "postnatal", "antenatal", "perinatal", "neonatal", 
      "maternal care", "maternal health", "pregnancy care", "birthing", "confinement", 
      "gestation", "expectant mother", "pregnant woman", "mother-to-be", "maternity ward"]),
   ("pre-existing",
     ["pre existing", "existing condition", "prior condition", "previous illness", 
      "pre-existing disease", "PED", "existing medical condition", "prior medical history", 
      "pre-existing ailment", "chronic condition", "pre-existing illness", "existing ailment", 
      "previous medical condition", "prior ailment", "existing disease", "chronic disease", 
      "hereditary condition", "congenital condition", "pre-existing medical condition", 
      "pre-existing health condition", "existing health condition", "prior health condition"]),
   ("cataract",
     ["cataract surgery", "cataract operation", "cataract treatment", "lens replacement", 
      "cataract removal", "eye surgery", "lens surgery", "ocular surgery", "eye operation", 
      "lens operation", "intraocular lens", "IOL", "phacoemulsification", 
      "cataract extraction", "lens implant", "artificial lens", "eye lens replacement", 
      "vision correction surgery"]),
   ("surgery",
     ["operation", "surgical procedure", "medical procedure", "treatment", 
      "surgical treatment", "operative procedure", "surgical intervention", 
      "medical operation", "surgical operation", "operative treatment", "invasive procedure", 
      "surgical care", "operative care", "surgical service", "medical surgery", 
      "clinical procedure"]),
   ("air ambulance",
     ["air ambulance services", "helicopter ambulance", "medical helicopter", 
      "air medical transport", "aviation ambulance", "flight ambulance", "medical aviation", 
      "emergency aviation", "helicopter medical service", "air medical service", 
      "medical helicopter transport", "emergency air transport", "aerial ambulance", 
      "medical flight", "ambulance aircraft", "emergency helicopter", "medical chopper", 
      "air medical evacuation", "aeromedical transport"]),
   ("distance",
     ["travel distance", "transportation distance", "journey distance", "flight distance", 
      "travel range", "coverage distance", "service distance", "operational distance", 
      "kilometer", "kilometres", "km", "kms", "miles", "nautical miles"]),
   ("well mother",
     ["well mother cover", "well mother care", "mother wellness", "maternal wellness", 
      "mother care", "maternal care", "expectant mother care", "pregnancy wellness", 
      "maternal health care", "mother health", "well mother benefits", 
      "mother wellness program"]),
   ("well baby",
     ["well baby care", "well baby expenses", "baby wellness", "infant wellness", 
      "newborn care", "baby care", "infant care", "neonatal care", "baby health", 
      "infant health", "newborn wellness", "well baby benefits", "baby wellness program", 
      "healthy baby", "baby medical care", "infant medical care", "newborn medical care"]),
   ("routine medical care",
     ["routine care", "regular medical care", "standard medical care", "basic medical care", 
      "preventive care", "wellness care", "health maintenance", "regular checkups", 
      "routine checkups", "standard checkups", "medical maintenance", "health monitoring"]),
   ("preventive care",
     ["preventive care services", "preventative care", "wellness services", "health screening", 
      "health maintenance", "preventive medicine", "wellness programs", "health promotion", 
      "disease prevention", "health protection", "preventive health", "wellness care"]),
   ("uin",
     ["unique identification number", "product identification", "policy identification", 
      "insurance identification", "regulatory number", "product code", "policy code", 
      "identification code", "reference number", "product number", "policy number", 
      "registration number", "approval number", "license number"]),
   ("base product",
     ["base policy", "main product", "primary product", "core product", "basic product", 
      "underlying product", "foundation product", "principal product", "master product", 
      "parent product", "root product", "original product"]),
   ("add on",
     ["add-on", "addon", "rider", "endorsement", "supplement", "extension", "additional cover", 
      "optional cover", "extra cover", "supplementary cover", "ancillary cover", 
      "additional benefit", "extra benefit", "supplementary benefit", "optional benefit"]),
   ("organ donor",
     ["organ donation", "donor expenses", "transplant donor", "organ harvesting", 
      "donor hospitalization", "organ transplant donor", "transplantation donor", 
      "organ harvesting expenses", "donor medical expenses", "transplant surgery donor", 
      "organ procurement", "donor surgery", "organ retrieval", "donor operation"]),
   ("no claim discount",
     ["NCD", "no claim bonus", "NCB", "claim free discount", "loyalty discount", 
      "renewal discount", "good health discount", "claim-free bonus", "no claims discount", 
      "claim-free discount", "bonus discount", "renewal bonus", "loyalty bonus", 
      "experience discount", "safe driving discount", "good record discount"]),
   ("health check",
     ["health checkup", "preventive checkup", "medical checkup", "health screening", 
      "annual checkup", "routine checkup", "preventive care", "wellness checkup", 
      "medical examination", "health assessment", "health evaluation", "medical screening", 
      "wellness examination", "health monitoring", "medical assessment", "health review"]),
   ("ayush",
     ["ayurveda", "yoga", "naturopathy", "unani", "siddha", "homeopathy", 
      "alternative medicine", "traditional medicine", "ayurvedic treatment", 
      "homeopathic treatment", "natural medicine", "complementary medicine", 
      "integrative medicine", "holistic medicine", "traditional healing", "herbal medicine", 
      "natural healing", "alternative therapy"]),
   ("hospital",
     ["medical institution", "healthcare facility", "nursing home", "medical center", "clinic", 
      "healthcare center", "medical facility", "treatment center", "healthcare institution", 
      "medical establishment", "healthcare establishment", "treatment facility", 
      "care facility", "medical complex", "healthcare complex"]),
   ("room rent",
     ["daily room", "room charges", "accommodation charges", "bed charges", "room and board", 
      "hospitalization charges", "room expenses", "accommodation expenses", "bed expenses", 
      "room rate", "accommodation rate", "bed rate", "room cost", "accommodation cost", 
      "bed cost", "daily room charges", "room tariff"]),
   ("icu",
     ["intensive care unit", "ICU charges", "critical care", "intensive care", 
      "critical care unit", "CCU", "intensive care expenses", "critical care expenses", 
      "intensive care costs", "critical care costs", "ICU costs", "ICU rates", 
      "intensive care rates", "critical care rates", "intensive therapy unit", "ITU"]),
   ("plan a",
     ["plan-a", "plana", "basic plan", "plan 1", "option a", "package a", "Plan A", "PLAN A"]),
   ("plan b",
     ["plan-b", "planb", "standard plan", "plan 2", "option b", "package b", "Plan B", "PLAN B"]),
   ("plan c",
     ["plan-c", "planc", "premium plan", "plan 3", "option c", "package c", "Plan C", "PLAN C"]),
   ("premium",
     ["insurance premium", "policy premium", "payment", "installment", "contribution", 
      "premium amount", "policy payment", "insurance payment", "premium charges", 
      "policy charges", "insurance charges", "premium cost", "policy cost", "insurance cost", 
      "premium rate", "policy rate"]),
   ("deductible",
     ["excess", "co-pay", "copayment", "out of pocket", "self retention", "franchise", 
      "deductible amount", "excess amount", "co-payment amount", "out-of-pocket amount", 
      "self-retention amount", "excess charge", "co-pay charge", "deductible charge", 
      "excess cost", "co-pay cost"]),
   ("sum insured",
     ["coverage amount", "insured amount", "policy limit", "maximum coverage", "benefit limit", 
      "insurance amount", "SI", "sum assured", "coverage limit", "insurance limit", 
      "policy amount", "insured sum", "assured sum", "maximum benefit", "benefit amount", 
      "coverage sum", "insurance sum"]),
   ("policy",
     ["insurance policy", "contract", "agreement", "terms and conditions", "policy document", 
      "insurance contract", "policy terms", "insurance terms", "contract terms", 
      "agreement terms", "policy conditions", "insurance conditions", "contract conditions", 
      "policy provisions", "insurance provisions"]),
   ("exclusion",
     ["excluded", "not covered", "exception", "limitation", "restriction", 
      "excluded condition", "non-covered expense", "excluded treatment", "excluded service", 
      "excluded benefit", "excluded care", "not payable", "non-payable", "non-reimbursable", 
      "ineligible", "disallowed"]),
   ("licensed",
     ["licensed", "certified", "authorized", "approved", "accredited", "registered", 
      "qualified", "permitted", "sanctioned", "endorsed", "validated", "recognized", 
      "duly licensed", "properly licensed", "legally licensed", "officially licensed"]),
   ("competent authority",
     ["government authority", "regulatory authority", "licensing authority", 
      "competent government authority", "authorized authority", "official authority", 
      "regulatory body", "government body", "licensing body", "certification authority", 
      "approval authority", "regulatory agency"]),
   ("table",
     ["table of benefits", "benefit table", "coverage table", "schedule", "benefit schedule", 
      "coverage schedule", "table of coverage", "benefits table", "policy schedule", 
      "insurance schedule", "benefit chart", "coverage chart", "benefits chart"]),
   ("limit",
     ["limitation", "cap", "maximum", "ceiling", "upper limit", "threshold", "boundary", 
      "restriction", "constraint", "maximum limit", "benefit limit", "coverage limit", 
      "payment limit", "reimbursement limit", "claim limit", "expense limit"]),
   ("period",
     ["time period", "coverage period", "policy period", "benefit period", "term", "duration", 
      "timeframe", "time frame", "span", "length", "interval", "phase", "stage", "epoch", 
      "era", "cycle"]),
   ("options",
     ["choices", "alternatives", "selections", "variants", "varieties", "types", "categories", 
      "plans", "schemes", "packages", "programs", "offerings"]),
   ("multiple",
     ["multiple births", "multiple babies", "twins", "triplets", "quadruplets", 
      "multiple children", "multiple newborns", "multiple infants", "twin births", 
      "multiple deliveries", "simultaneous births"]),
   ("proportionate",
     ["proportional", "pro-rata", "proportionate payment", "proportional payment", 
      "partial payment", "reduced payment", "scaled payment", "adjusted payment", 
      "calculated payment", "percentage payment", "ratio-based payment"])]

/-- The `number_words` table (`query_processor.py:347`). -/
def number_words : List (String × List String) :=
  [
   ("1",
     ["one", "first", "single", "1st", "i"]),
   ("2",
     ["two", "second", "double", "twice", "2nd", "ii"]),
   ("3",
     ["three", "third", "triple", "thrice", "3rd", "iii"]),
   ("4",
     ["four", "fourth", "quad", "4th", "iv"]),
   ("5",
     ["five", "fifth", "5th", "v"]),
   ("6",
     ["six", "sixth", "6th", "vi"]),
   ("7",
     ["seven", "seventh", "7th", "vii"]),
   ("8",
     ["eight", "eighth", "8th", "viii"]),
   ("9",
     ["nine", "ninth", "9th", "ix"]),
   ("10",
     ["ten", "tenth", "10th", "x"]),
   ("12",
     ["twelve", "twelfth", "dozen", "12th"]),
   ("15",
     ["fifteen", "fifteenth", "15th"]),
   ("24",
     ["twenty four", "twenty-four", "two dozen", "24th"]),
   ("30",
     ["thirty", "thirtieth", "30th"]),
   ("36",
     ["thirty six", "thirty-six", "36th"]),
   ("48",
     ["forty eight", "forty-eight", "48th"]),
   ("50",
     ["fifty", "fiftieth", "50th"]),
   ("100",
     ["hundred", "one hundred", "100th"]),
   ("150",
     ["one hundred fifty", "one hundred and fifty", "150th"])]

/-- The `technical_terms` table of `_get_technical_expansions` (`query_processor.py:799`). -/
def technical_terms : List (String × List String) :=
  [
   ("uin",
     ["unique identification number", "product identification", "policy code"]),
   ("si",
     ["sum insured", "insured amount", "coverage amount"]),
   ("ped",
     ["pre-existing disease", "existing condition", "prior condition"]),
   ("ncd",
     ["no claim discount", "no claim bonus", "claim free discount"]),
   ("icu",
     ["intensive care unit", "critical care", "intensive care"]),
   ("ccv",
     ["cashless claim voucher", "cashless facility", "cashless treatment"])]

/-- The `semantic_map` table of `_get_semantic_expansions` (`query_processor.py:819`). -/
def semantic_map : List (String × List String) :=
  [
   ("maximum",
     ["limit", "ceiling", "cap", "upper bound", "highest"]),
   ("minimum",
     ["floor", "lowest", "base", "starting"]),
   ("period",
     ["duration", "time", "term", "span", "interval"]),
   ("coverage",
     ["protection", "benefits", "indemnity", "compensation"]),
   ("treatment",
     ["care", "therapy", "service", "medical attention"]),
   ("expenses",
     ["costs", "charges", "fees", "payments", "bills"])]

/-- `question.lower().strip()` as computed at `query_processor.py:587`. -/
def base_query (question : Str) : Str := pyStrip (pyLower question)

/-- `\b\d+\b`, the number extractor of `query_processor.py:591`. -/
def numbersPat : Pat := { rx := rxDig1, lb := true, rb := true }

/-- `\b[A-Z]\x7b2,\x7d[0-9]\x7b2,\x7d[A-Z0-9]*\b`, the code extractor of
`query_processor.py:592` (also the UIN-shape bonus of line 924). -/
def uinCodePat : Pat :=
  { rx := rxCat [Rx.cls Cls.upperAZ, Rx.cls Cls.upperAZ,
      Rx.star (Rx.cls Cls.upperAZ), Rx.cls Cls.digit, Rx.cls Cls.digit,
      Rx.star (Rx.cls Cls.digit), Rx.star (Rx.cls Cls.upperAZ09)],
    lb := true, rb := true }

/-- Step 1 (`query_processor.py:595`): for every synonym table entry whose
key occurs in the base query, emit the title-cased replacement, the
synonym itself, and each word of more than three characters of a
multi-word synonym. -/
def synonym_expansions (base : Str) : List Str :=
  comprehensive_synonyms.flatMap (fun ts =>
    if listContains base ts.1.toList then
      ts.2.flatMap (fun syn =>
        [pyTitle (pyReplaceAll base ts.1.toList syn.toList), syn.toList]
          ++ (if 1 < (pySplit syn.toList).length then
                (pySplit syn.toList).filter (fun w => 3 < w.length)
              else []))
    else [])

/-- Step 2 (`query_processor.py:609`): for every digit run of the base
query that is a `number_words` key, emit the title-cased replacement and
the word form. -/
def number_expansions (base : Str) : List Str :=
  (findallList numbersPat base).flatMap (fun num =>
    match number_words.find? (fun kv => decide (kv.1.toList = num)) with
    | some kv => kv.2.flatMap (fun wf =>
        [pyTitle (pyReplaceAll base num wf.toList), wf.toList])
    | none => [])

/-- Alternation of a list of regexes (`a|b|c`). -/
def rxAlts : List Rx → Rx
  | [] => Rx.emp
  | [r] => r
  | r :: rest => Rx.alt r (rxAlts rest)

/-- The common `a.*b` trigger shape. -/
def rxDotPair (a b : String) : Rx := rxCat [rxLit a, rxDotStar, rxLit b]

/-- The trigger-pattern table of `_get_enhanced_pattern_expansions`
(`query_processor.py:660`), in dict order. -/
def enhanced_patterns : List (Rx × List String) :=
  [(rxAlts [rxDotPair "air ambulance" "distance", rxDotPair "distance" "air ambulance"],
     ["150 km air ambulance", "maximum air ambulance distance", "air ambulance travel limit",
      "air ambulance range", "helicopter ambulance distance", "medical helicopter range",
      "aviation ambulance limit", "air medical transport distance", "flight ambulance range"]),
   (rxAlts [rxDotPair "air ambulance" "exceed", rxDotPair "exceed" "air ambulance"],
     ["distance exceeded air ambulance", "proportionate air ambulance payment",
      "air ambulance over distance", "air ambulance distance limit exceeded",
      "air ambulance partial payment", "reduced air ambulance payment"]),
   (rxAlts [rxDotPair "well mother" "period", rxDotPair "period" "well mother"],
     ["three well mother periods", "well mother coverage periods", "well mother options",
      "maternal coverage periods", "pregnancy coverage periods", "mother care periods"]),
   (rxAlts [rxDotPair "well baby" "cover", rxDotPair "cover" "well baby"],
     ["newborn baby coverage", "infant care coverage", "baby medical coverage",
      "well baby expenses", "healthy baby care", "baby wellness coverage"]),
   (rxAlts [rxLit "uin", rxDotPair "product" "uin", rxDotPair "base" "uin"],
     ["base product UIN", "add-on UIN", "policy UIN", "product identification number",
      "unique identification", "regulatory number", "approval number", "license number"]),
   (rxAlts [rxDotPair "multiple" "birth", rxDotPair "multiple" "bab"],
     ["twins coverage", "multiple babies coverage", "twin births", "multiple children",
      "simultaneous births", "multiple deliveries", "twin delivery", "multiple infants"]),
   (rxAlts [rxDotPair "proportion" "payment", rxDotPair "payment" "proportion"],
     ["partial payment", "reduced payment", "pro-rata payment", "calculated payment",
      "percentage payment", "scaled payment", "adjusted payment", "ratio payment"]),
   (rxDotPair "grace period" "premium",
     ["thirty days premium payment", "30 days grace premium", "premium payment grace period",
      "grace period payment", "premium grace thirty days", "payment grace period",
      "renewal grace premium", "policy grace premium"]),
   (rxCat [rxLit "waiting period", rxDotStar, rxLit "pre", rxDotStar, rxLit "existing"],
     ["36 months pre-existing diseases", "thirty six months PED",
      "pre-existing disease waiting period", "PED 36 months waiting",
      "continuous coverage 36 months", "pre-existing condition waiting",
      "chronic condition waiting", "existing condition waiting"]),
   (rxDotPair "waiting period" "cataract",
     ["cataract two years waiting", "cataract surgery 2 years", "two year waiting cataract",
      "cataract operation waiting period", "eye surgery waiting period",
      "lens surgery waiting", "vision surgery waiting", "ocular surgery waiting"]),
   (rxAlts [rxDotPair "maternity" "cover", rxDotPair "cover" "maternity"],
     ["maternity expenses covered", "pregnancy coverage conditions", "childbirth expenses",
      "maternity benefits", "24 months maternity waiting", "pregnancy benefits",
      "delivery coverage", "obstetric coverage", "prenatal coverage", "postnatal coverage"]),
   (rxAlts [rxDotPair "table" "benefit", rxDotPair "benefit" "table"],
     ["benefits schedule", "coverage table", "benefit chart", "policy schedule",
      "insurance schedule", "benefit summary", "coverage summary", "benefits list",
      "coverage list", "benefit breakdown"]),
   (rxAlts [rxLit "exclusion", rxDotPair "not" "cover", rxLit "excluded"],
     ["policy exclusions", "coverage exclusions", "excluded conditions",
      "non-covered expenses", "excluded treatments", "excluded services", "limitations",
      "restrictions", "exceptions", "non-payable expenses"]),
   (rxAlts [rxDotPair "licens" "authority", rxDotPair "authority" "licens",
            rxDotPair "competent" "authority"],
     ["government licensing authority", "regulatory licensing body",
      "competent government authority", "official licensing authority",
      "authorized government body", "regulatory approval authority",
      "certification authority", "accreditation body", "licensing agency"])]

/-- Step 3 (`query_processor.py:655`): every trigger pattern that
`re.search`-matches the query contributes its expansion list. -/
def get_enhanced_pattern_expansions (query : Str) : List Str :=
  enhanced_patterns.flatMap (fun pe =>
    if reSearch (pr pe.1) (pyLower query) then pe.2.map String.toList else [])

/-- Step 4 (`query_processor.py:760`): three guarded expansion groups. -/
def get_insurance_specific_expansions (query : Str) : List Str :=
  (if ["section", "clause", "provision", "article"].any
       (fun t => listContains query t.toList) then
     (["policy section", "insurance clause", "coverage provision", "benefit article",
       "terms section", "conditions clause"].map String.toList)
   else [])
  ++ (if ["uin", "regulation", "compliance", "authority"].any
          (fun t => listContains query t.toList) then
        (["regulatory compliance", "insurance regulation", "policy compliance",
          "regulatory authority", "insurance authority",
          "compliance requirement"].map String.toList)
      else [])
  ++ (if ["benefit", "coverage", "policy", "plan"].any
          (fun t => listContains query t.toList) then
        (["insurance benefits", "policy coverage", "benefit coverage", "plan benefits",
          "coverage benefits", "policy benefits"].map String.toList)
      else [])

/-- Step 5 (`query_processor.py:834`): five guarded expansion groups. -/
def get_context_specific_expansions (query : Str) : List Str :=
  (if ["policy", "coverage", "benefit", "claim"].any
       (fun t => listContains query t.toList) then
     (["insurance policy benefits", "coverage conditions", "policy terms and conditions",
       "benefit limitations", "claim procedures", "policy exclusions", "coverage exclusions",
       "benefit exclusions", "policy provisions", "insurance provisions"].map String.toList)
   else [])
  ++ (if ["treatment", "surgery", "medical", "hospital"].any
          (fun t => listContains query t.toList) then
        (["medical treatment coverage", "surgical procedures", "hospitalization benefits",
          "inpatient treatment", "outpatient care", "medical expenses", "treatment expenses",
          "surgical expenses", "hospital expenses",
          "medical care expenses"].map String.toList)
      else [])
  ++ (if ["premium", "payment", "discount", "limit", "amount"].any
          (fun t => listContains query t.toList) then
        (["premium payment terms", "financial benefits", "cost limitations",
          "payment schedules", "discount eligibility", "amount restrictions",
          "payment limits", "cost limits", "expense limits",
          "reimbursement limits"].map String.toList)
      else [])
  ++ (if ["period", "time", "duration", "year", "month", "day"].any
          (fun t => listContains query t.toList) then
        (["time periods", "duration requirements", "waiting periods", "coverage periods",
          "renewal periods", "grace periods", "policy periods", "benefit periods",
          "term periods", "coverage terms"].map String.toList)
      else [])
  ++ (if ["air", "ambulance", "helicopter", "aviation"].any
          (fun t => listContains query t.toList) then
        (["emergency air transport", "medical aviation", "air medical service",
          "helicopter medical service", "aviation medical service", "air ambulance service",
          "medical helicopter", "emergency helicopter", "medical flight"].map String.toList)
      else [])

/-- Step 6 (`query_processor.py:787`): six phrases per extracted
alphanumeric code, then the abbreviation table. -/
def get_technical_expansions (query : Str) (codes : List Str) : List Str :=
  codes.flatMap (fun code =>
    ["product ".toList ++ code, "policy ".toList ++ code, "UIN ".toList ++ code,
     "identification ".toList ++ code, "number ".toList ++ code, "code ".toList ++ code])
  ++ technical_terms.flatMap (fun ts =>
      if listContains (pyLower query) ts.1.toList then ts.2.map String.toList else [])

/-- Step 7 (`query_processor.py:814`): semantic relationship expansions. -/
def get_semantic_expansions (query : Str) : List Str :=
  semantic_map.flatMap (fun ts =>
    if listContains (pyLower query) ts.1.toList then ts.2.map String.toList else [])

/-- The full `query_variations` pool of `_preprocess_query`
(`query_processor.py:588-634`), in source order. -/
def preprocess_pool (question : Str) : List Str :=
  pyStrip question ::
    (synonym_expansions (base_query question)
     ++ number_expansions (base_query question)
     ++ get_enhanced_pattern_expansions (base_query question)
     ++ get_insurance_specific_expansions (base_query question)
     ++ get_context_specific_expansions (base_query question)
     ++ get_technical_expansions (base_query question)
          (findallList uinCodePat (pyUpper question))
     ++ get_semantic_expansions (base_query question))

/-- One iteration of the dedup loop (`query_processor.py:640`): the state
is `(seen, unique_variations)`; a variant is kept when its
stripped-and-lowered form is non-empty, unseen and longer than one
character, and the variant has at most 20 words. -/
def dedup_step (st : List Str × List Str) (v : Str) : List Str × List Str :=
  if pyLower (pyStrip v) ≠ [] ∧ pyLower (pyStrip v) ∉ st.1
      ∧ 1 < (pyLower (pyStrip v)).length ∧ (pySplit v).length ≤ 20 then
    (pyLower (pyStrip v) :: st.1, st.2 ++ [pyStrip v])
  else st

/-- The `unique_variations` list of `_preprocess_query`. -/
def dedup_filter (pool : List Str) : List Str :=
  (pool.foldl dedup_step ([], [])).2

/-- `high_value_terms` of `_prioritize_variations_enhanced`
(`query_processor.py:906`). -/
def priority_high_terms : List String :=
  ["uin", "air ambulance", "well mother", "well baby", "base product",
   "add-on", "proportionate", "distance", "licensed", "authority"]

/-- `medium_value_terms` of `_prioritize_variations_enhanced`
(`query_processor.py:910`). -/
def priority_medium_terms : List String :=
  ["grace", "waiting", "maternity", "cataract", "ncd", "ayush",
   "exclusion", "coverage", "benefit", "treatment"]

/-- `\d+` searched in the raw variant (`query_processor.py:902`). -/
def digitSearchPat : Pat := { rx := rxDig1 }

/-- `\d+\s*(km|kilometers|metres|meters)` (`query_processor.py:928`). -/
def kmPat : Pat :=
  { rx := rxCat [rxDig1, rxWs0,
      rxAlts [rxLit "km", rxLit "kilometers", rxLit "metres", rxLit "meters"]] }

/-- `\d+\s*(years?|months?|days?)` (`query_processor.py:932`). -/
def periodPat : Pat :=
  { rx := rxCat [rxDig1, rxWs0,
      rxAlts [rxOptS "year", rxOptS "month", rxOptS "day"]] }

/-- The priority score of one variant (`query_processor.py:884-933`). -/
def variation_score (original variant : Str) : Nat :=
  (if pyLower variant = pyLower original then 100 else 0)
  + (if 5 ≤ (pySplit variant).length then 60
     else if 3 ≤ (pySplit variant).length then 40
     else if 2 ≤ (pySplit variant).length then 20 else 0)
  + (if reSearch digitSearchPat variant then 25 else 0)
  + 30 * (priority_high_terms.filter
      (fun t => listContains (pyLower variant) t.toList)).length
  + 15 * (priority_medium_terms.filter
      (fun t => listContains (pyLower variant) t.toList)).length
  + (if reSearch uinCodePat (pyUpper variant) then 40 else 0)
  + (if reSearch kmPat (pyLower variant) then 35 else 0)
  + (if reSearch periodPat (pyLower variant) then 30 else 0)

/-- `_prioritize_variations_enhanced` (`query_processor.py:880`): score
every variant, then a stable descending sort on the score. -/
def prioritize_variations_enhanced (variations : List Str) (original : Str) :
    List Str :=
  ((variations.map (fun v => (variation_score original v, v))).mergeSort
    (fun a b => decide (b.1 ≤ a.1))).map (fun p => p.2)

/-- `_preprocess_query` (`query_processor.py:585`): pool, dedup filter,
prioritization, and the final cap of 20. -/
def preprocess_query (question : Str) : List Str :=
  (prioritize_variations_enhanced (dedup_filter (preprocess_pool question))
    question).take 20

/-- Dropping with the same predicate twice drops nothing new. -/
lemma dropWhile_dropWhile {α : Type} (p : α → Bool) (l : List α) :
    (l.dropWhile p).dropWhile p = l.dropWhile p := by
  induction l with
  | nil => rfl
  | cons a l ih =>
    rw [List.dropWhile_cons]
    by_cases h : p a = true
    · rw [if_pos h]
      exact ih
    · rw [if_neg h, List.dropWhile_cons, if_neg h]

/-- A prefix of a `dropWhile`-fixed list is itself `dropWhile`-fixed. -/
lemma dropWhile_eq_self_of_prefix {α : Type} (p : α → Bool) {t m : List α}
    (hpre : t <+: m) (hm : m.dropWhile p = m) : t.dropWhile p = t := by
  cases t with
  | nil => rfl
  | cons a t2 =>
    obtain ⟨r, hr⟩ := hpre
    subst hr
    rw [List.cons_append, List.dropWhile_cons] at hm
    rw [List.dropWhile_cons]
    by_cases h : p a = true
    · rw [if_pos h] at hm
      have hle : ((t2 ++ r).dropWhile p).length ≤ (t2 ++ r).length :=
        (List.dropWhile_suffix p).sublist.length_le
      rw [hm] at hle
      simp only [List.length_cons, List.length_append] at hle
      omega
    · rw [if_neg h]

/-- A stripped string has no leading whitespace. -/
lemma pyStrip_dropWhile (s : Str) :
    (pyStrip s).dropWhile pyIsWs = pyStrip s := by
  have h1 : ((s.dropWhile pyIsWs).reverse.dropWhile pyIsWs)
      <:+ (s.dropWhile pyIsWs).reverse := List.dropWhile_suffix _
  have h2 := List.reverse_prefix.mpr h1
  rw [List.reverse_reverse] at h2
  exact dropWhile_eq_self_of_prefix pyIsWs h2 (dropWhile_dropWhile pyIsWs s)

/-- A stripped string has no trailing whitespace. -/
lemma pyStrip_reverse_dropWhile (s : Str) :
    (pyStrip s).reverse.dropWhile pyIsWs = (pyStrip s).reverse := by
  have h : (pyStrip s).reverse
      = (s.dropWhile pyIsWs).reverse.dropWhile pyIsWs :=
    List.reverse_reverse _
  rw [h]
  exact dropWhile_dropWhile pyIsWs _

/-- `str.strip()` is idempotent. -/
lemma pyStrip_idem (s : Str) : pyStrip (pyStrip s) = pyStrip s := by
  show (((pyStrip s).dropWhile pyIsWs).reverse.dropWhile pyIsWs).reverse
      = pyStrip s
  rw [pyStrip_dropWhile, pyStrip_reverse_dropWhile, List.reverse_reverse]

/-- The dedup fold only ever appends to the kept list. -/
lemma dedup_acc_mem (l : List Str) : ∀ (st : List Str × List Str) (v : Str),
    v ∈ st.2 → v ∈ (l.foldl dedup_step st).2 := by
  induction l with
  | nil =>
    intro st v hv
    exact hv
  | cons a l ih =>
    intro st v hv
    rw [List.foldl_cons]
    apply ih
    simp only [dedup_step]
    split
    · exact List.mem_append_left _ hv
    · exact hv

/-- One dedup step preserves the seen-set invariant and pairwise
distinctness of the stripped-and-lowered forms. -/
lemma dedup_step_invariant (st : List Str × List Str) (a : Str)
    (h1 : ∀ v ∈ st.2, pyLower (pyStrip v) ∈ st.1)
    (h2 : st.2.Pairwise (fun x y => pyLower (pyStrip x) ≠ pyLower (pyStrip y))) :
    (∀ v ∈ (dedup_step st a).2, pyLower (pyStrip v) ∈ (dedup_step st a).1) ∧
    (dedup_step st a).2.Pairwise
      (fun x y => pyLower (pyStrip x) ≠ pyLower (pyStrip y)) := by
  by_cases hc : pyLower (pyStrip a) ≠ [] ∧ pyLower (pyStrip a) ∉ st.1
      ∧ 1 < (pyLower (pyStrip a)).length ∧ (pySplit a).length ≤ 20
  · have hs : dedup_step st a
        = (pyLower (pyStrip a) :: st.1, st.2 ++ [pyStrip a]) := by
      simp only [dedup_step]
      rw [if_pos hc]
    rw [hs]
    constructor
    · intro v hv
      rcases List.mem_append.mp hv with h | h
      · exact List.mem_cons_of_mem _ (h1 v h)
      · rw [List.mem_singleton] at h
        subst h
        rw [pyStrip_idem]
        exact List.mem_cons_self _ _
    · refine List.pairwise_append.mpr ⟨h2, by simp, ?_⟩
      intro x hx y hy
      rw [List.mem_singleton] at hy
      subst hy
      rw [pyStrip_idem]
      intro heq
      exact hc.2.1 (heq ▸ h1 x hx)
  · have hs : dedup_step st a = st := by
      simp only [dedup_step]
      rw [if_neg hc]
    rw [hs]
    exact ⟨h1, h2⟩

/-- The dedup fold keeps the invariant along any pool. -/
lemma dedup_fold_invariant (l : List Str) : ∀ (st : List Str × List Str),
    (∀ v ∈ st.2, pyLower (pyStrip v) ∈ st.1) →
    st.2.Pairwise (fun x y => pyLower (pyStrip x) ≠ pyLower (pyStrip y)) →
    (∀ v ∈ (l.foldl dedup_step st).2,
        pyLower (pyStrip v) ∈ (l.foldl dedup_step st).1) ∧
    (l.foldl dedup_step st).2.Pairwise
      (fun x y => pyLower (pyStrip x) ≠ pyLower (pyStrip y)) := by
  induction l with
  | nil =>
    intro st h1 h2
    exact ⟨h1, h2⟩
  | cons a l ih =>
    intro st h1 h2
    rw [List.foldl_cons]
    exact ih _ (dedup_step_invariant st a h1 h2).1
      (dedup_step_invariant st a h1 h2).2

/-- The dedup filter output is pairwise distinct after strip + lower. -/
lemma dedup_filter_pairwise (pool : List Str) :
    (dedup_filter pool).Pairwise
      (fun x y => pyLower (pyStrip x) ≠ pyLower (pyStrip y)) := by
  have h := dedup_fold_invariant pool ([], [])
    (by intro v hv; exact absurd hv (List.not_mem_nil v)) List.Pairwise.nil
  exact h.2

/-- Prioritization permutes its input. -/
lemma prioritize_perm (vs : List Str) (original : Str) :
    (prioritize_variations_enhanced vs original).Perm vs := by
  unfold prioritize_variations_enhanced
  have h1 := List.mergeSort_perm
    (vs.map (fun v => (variation_score original v, v)))
    (fun a b => decide (b.1 ≤ a.1))
  have h2 := h1.map (fun p : Nat × Str => p.2)
  rw [List.map_map] at h2
  simpa [Function.comp_def] using h2

/-- C5 (amended): `_preprocess_query` returns at most 20 variants and
they are pairwise distinct after stripping and lower-casing; the stripped
original question is guaranteed to survive the dedup filter only when it
has more than one character and at most 20 words, and the +100 priority
bonus fires only when the question carries no surrounding whitespace.
The original is not unconditionally among the returned variants. -/
theorem c5_query_expander_amended (question : Str) :
    (preprocess_query question).length ≤ 20 ∧
    (preprocess_query question).Pairwise
      (fun x y => pyLower (pyStrip x) ≠ pyLower (pyStrip y)) ∧
    (1 < (pyStrip question).length →
      (pySplit (pyStrip question)).length ≤ 20 →
      pyStrip question ∈ dedup_filter (preprocess_pool question)) ∧
    (pyStrip question = question →
      100 ≤ variation_score question (pyStrip question)) := by
  refine ⟨?_, ?_, ?_, ?_⟩
  · unfold preprocess_query
    exact List.length_take_le _ _
  · unfold preprocess_query
    have hperm := prioritize_perm (dedup_filter (preprocess_pool question)) question
    have hpair := (List.Perm.pairwise_iff (fun h e => h e.symm) hperm).mpr
      (dedup_filter_pairwise (preprocess_pool question))
    exact List.Pairwise.sublist (List.take_sublist _ _) hpair
  · intro hlen hsplit
    have hne : pyLower (pyStrip (pyStrip question)) ≠ [] := by
      rw [pyStrip_idem]
      intro h
      have hl := congrArg List.length h
      simp only [pyLower, List.length_map, List.length_nil] at hl
      omega
    have hlen2 : 1 < (pyLower (pyStrip (pyStrip question))).length := by
      rw [pyStrip_idem]
      simpa [pyLower] using hlen
    have hcond : pyLower (pyStrip (pyStrip question)) ≠ [] ∧
        pyLower (pyStrip (pyStrip question)) ∉ ([] : List Str) ∧
        1 < (pyLower (pyStrip (pyStrip question))).length ∧
        (pySplit (pyStrip question)).length ≤ 20 :=
      ⟨hne, List.not_mem_nil _, hlen2, hsplit⟩
    have hstep : dedup_step ([], []) (pyStrip question)
        = ([pyLower (pyStrip question)], [pyStrip question]) := by
      simp only [dedup_step]
      rw [if_pos hcond, pyStrip_idem]
      rfl
    unfold dedup_filter preprocess_pool
    rw [List.foldl_cons, hstep]
    exact dedup_acc_mem _ _ _ (by simp)
  · intro hst
    unfold variation_score
    rw [hst, if_pos rfl]
    omega

/-- Witness for `c5_query_expander_amended` at the two-word question
"ab cd": both hypotheses hold and the conclusion is instantiated. -/
theorem c5_query_expander_amended_witness :
    pyStrip "ab cd".toList ∈ dedup_filter (preprocess_pool "ab cd".toList) ∧
    100 ≤ variation_score "ab cd".toList (pyStrip "ab cd".toList) :=
  ⟨(c5_query_expander_amended "ab cd".toList).2.2.1 (by decide) (by decide),
   (c5_query_expander_amended "ab cd".toList).2.2.2 (by decide)⟩

/-- A 21-word question: every word is a single letter, so no expansion
trigger fires and the pool is the stripped question alone. -/
def c5_long_question : Str :=
  "a b c d e f g h i j k l m n o p q r s t u".toList

/-- Prioritizing an empty variation list yields the empty list. -/
lemma prioritize_nil (original : Str) :
    prioritize_variations_enhanced [] original = [] := by
  simp [prioritize_variations_enhanced]

set_option maxRecDepth 8000 in
set_option maxHeartbeats 1600000 in
/-- C5 counterexample: the dedup filter drops every variant of more than
20 words, including the original question itself, so the expander returns
the empty list and the original is not among the returned variants —
refuting the unconditional "always included" part of the claim. -/
theorem c5_long_question_drops_original :
    preprocess_query c5_long_question = [] ∧
    pyStrip c5_long_question ∉ preprocess_query c5_long_question := by
  have hd : dedup_filter (preprocess_pool c5_long_question) = [] := by decide
  have h : preprocess_query c5_long_question = [] := by
    unfold preprocess_query
    rw [hd, prioritize_nil]
    rfl
  refine ⟨h, ?_⟩
  rw [h]
  exact List.not_mem_nil _
